import Mathlib

/-!
Verification development for the utility-statement dispatcher of a
distributed PostgreSQL fork (Postgres-XC), shallowly embedded from
`src/backend/tcop/utility.c`.

The embedding mirrors the source file:
* parse-tree node tags become the inductive `Node`;
* `check_xact_readonly`, `PreventCommandIfReadOnly`,
  `PreventCommandDuringRecovery`, `CheckRestrictedOperation`,
  `CreateCommandTag`, `AlterObjectTypeCommandTag`,
  `ExecUtilityStmtOnNodes`, `UtilityReturnsTuples`,
  `UtilityTupleDescriptor` and `standard_ProcessUtility` are translated
  function by function;
* calls into external leaf subsystems (DDL implementations, portal
  manager, remote-execution transport, ...) are recorded as events in an
  execution trace;
* the session-local transaction-block machinery (`xact.c`, outside the
  excerpt) is modelled from the specification's description of the
  transaction state machine;
* `ereport(ERROR, ...)` / `elog(ERROR, ...)` abort the current command:
  the dispatcher result carries an optional `PGError`.

The build-time `PGXC` conditional compilation flag and the node-role
macros (`IS_PGXC_COORDINATOR`, `IsConnFromCoord()`) are carried in a
`Config` record; results of external calls that return data
(`PGXCNodePrepare`, `transformCreateStmt`, `DoCopy`, ...) are inputs in
an `Externals` record.
-/

namespace PGU

/-- `RemoteQueryExecType` from `pgxc/planner.h`: which node set executes a
propagated statement. -/
inductive RemoteQueryExecType where
  | EXEC_ON_DATANODES
  | EXEC_ON_COORDS
  | EXEC_ON_ALL_NODES
  | EXEC_ON_NONE
deriving DecidableEq

/-- `ObjectType` from `nodes/parsenodes.h` (the members referenced by
`utility.c`). -/
inductive ObjectType where
  | OBJECT_AGGREGATE
  | OBJECT_ATTRIBUTE
  | OBJECT_CAST
  | OBJECT_COLLATION
  | OBJECT_COLUMN
  | OBJECT_CONSTRAINT
  | OBJECT_CONVERSION
  | OBJECT_DATABASE
  | OBJECT_DOMAIN
  | OBJECT_EXTENSION
  | OBJECT_FDW
  | OBJECT_FOREIGN_SERVER
  | OBJECT_FOREIGN_TABLE
  | OBJECT_FUNCTION
  | OBJECT_INDEX
  | OBJECT_LANGUAGE
  | OBJECT_LARGEOBJECT
  | OBJECT_OPCLASS
  | OBJECT_OPERATOR
  | OBJECT_OPFAMILY
  | OBJECT_ROLE
  | OBJECT_RULE
  | OBJECT_SCHEMA
  | OBJECT_SEQUENCE
  | OBJECT_TABLE
  | OBJECT_TABLESPACE
  | OBJECT_TRIGGER
  | OBJECT_TSCONFIGURATION
  | OBJECT_TSDICTIONARY
  | OBJECT_TSPARSER
  | OBJECT_TSTEMPLATE
  | OBJECT_TYPE
  | OBJECT_VIEW
deriving DecidableEq

/-- Relation kind as returned by `get_rel_relkind` (catalog lookup,
external to the excerpt); `utility.c` only distinguishes sequences and
views from everything else. -/
inductive RelKind where
  | RELKIND_RELATION
  | RELKIND_SEQUENCE
  | RELKIND_VIEW
  | RELKIND_OTHER
deriving DecidableEq

/-- `TransactionStmtKind` from `nodes/parsenodes.h`. -/
inductive TransactionStmtKind where
  | TRANS_STMT_BEGIN
  | TRANS_STMT_START
  | TRANS_STMT_COMMIT
  | TRANS_STMT_PREPARE
  | TRANS_STMT_COMMIT_PREPARED
  | TRANS_STMT_ROLLBACK_PREPARED
  | TRANS_STMT_ROLLBACK
  | TRANS_STMT_SAVEPOINT
  | TRANS_STMT_RELEASE
  | TRANS_STMT_ROLLBACK_TO
deriving DecidableEq

/-- `AclObjectKind` members consulted by the `T_GrantStmt` branch. -/
inductive AclObjectKind where
  | ACL_OBJECT_RELATION
  | ACL_OBJECT_SEQUENCE
  | ACL_OBJECT_OTHER
deriving DecidableEq

/-- `VariableSetKind` from `nodes/parsenodes.h`. -/
inductive VariableSetKind where
  | VAR_SET_VALUE
  | VAR_SET_DEFAULT
  | VAR_SET_CURRENT
  | VAR_SET_MULTI
  | VAR_RESET
  | VAR_RESET_ALL
deriving DecidableEq

/-- `DiscardMode` from `nodes/parsenodes.h`. -/
inductive DiscardMode where
  | DISCARD_ALL
  | DISCARD_PLANS
  | DISCARD_TEMP
deriving DecidableEq

/-- Parse-tree nodes: one constructor per `T_*` tag that `utility.c`
handles, carrying exactly the fields the file reads.  Fields that the C
code obtains by a catalog lookup on the named relation
(`RangeVarGetRelid` + `get_rel_relkind`) are carried as a `RelKind`
field of the node. -/
inductive Node where
  | InsertStmt
  | DeleteStmt
  | UpdateStmt
  | SelectStmt
  /-- `kind`, `gid`, and the `options` list of `DefElem`s reduced to
  (defname, string value) pairs. -/
  | TransactionStmt (kind : TransactionStmtKind) (gid : String)
      (options : List (String × String))
  /-- Only the field the dispatcher reads: whether `utilityStmt` is a
  `DeclareCursorStmt`. -/
  | PlannedStmt (utilityIsDeclareCursor : Bool)
  | ClosePortalStmt (portalname : Option String)
  | FetchStmt (portalname : String) (ismove : Bool)
  | CreateSchemaStmt
  | CreateStmt
  | CreateForeignTableStmt
  | CreateTableSpaceStmt
  | DropTableSpaceStmt
  | AlterTableSpaceOptionsStmt
  | CreateExtensionStmt
  | AlterExtensionStmt
  | AlterExtensionContentsStmt
  | CreateFdwStmt
  | AlterFdwStmt
  | DropFdwStmt
  | CreateForeignServerStmt
  | AlterForeignServerStmt
  | DropForeignServerStmt
  | CreateUserMappingStmt
  | AlterUserMappingStmt
  | DropUserMappingStmt
  | DropStmt (removeType : ObjectType)
  | TruncateStmt
  | CommentStmt (objtype : ObjectType)
  | SecLabelStmt
  | CopyStmt
  | PrepareStmt
  | ExecuteStmt (name : String) (into : Bool)
  | DeallocateStmt (name : Option String)
  | RenameStmt (renameType : ObjectType) (relRelkind : RelKind)
  | AlterObjectSchemaStmt (objectType : ObjectType) (relRelkind : RelKind)
  | AlterOwnerStmt (objectType : ObjectType)
  | AlterTableStmt (relkind : ObjectType) (relRelkind : RelKind)
  | AlterDomainStmt (subtype : Char)
  | GrantStmt (is_grant : Bool) (objtype : AclObjectKind)
      (targetIsObject : Bool) (objectRelkinds : List RelKind)
  | GrantRoleStmt (is_grant : Bool)
  | AlterDefaultPrivilegesStmt
  | DefineStmt (kind : ObjectType)
  | CompositeTypeStmt
  | CreateEnumStmt
  | AlterEnumStmt
  | ViewStmt
  | CreateFunctionStmt
  | AlterFunctionStmt
  | IndexStmt (concurrent : Bool) (isconstraint : Bool)
  | RuleStmt (relRelkind : RelKind)
  | CreateSeqStmt
  | AlterSeqStmt
  | RemoveFuncStmt (kind : ObjectType)
  | DoStmt
  | CreatedbStmt
  | AlterDatabaseStmt
  | AlterDatabaseSetStmt
  | DropdbStmt (dbname : String)
  | NotifyStmt
  | ListenStmt
  | UnlistenStmt (conditionname : Option String)
  | LoadStmt
  | ClusterStmt
  /-- `options & VACOPT_VACUUM` reduced to a boolean. -/
  | VacuumStmt (isVacuum : Bool)
  | ExplainStmt
  | VariableSetStmt (kind : VariableSetKind) (is_local : Bool)
  | VariableShowStmt (name : String)
  | DiscardStmt (target : DiscardMode)
  | CreateTrigStmt
  | DropPropertyStmt (removeType : ObjectType) (relRelkind : RelKind)
  | CreatePLangStmt
  | DropPLangStmt
  | CreateDomainStmt
  | CreateRoleStmt
  | AlterRoleStmt
  | AlterRoleSetStmt
  | DropRoleStmt
  | DropOwnedStmt
  | ReassignOwnedStmt
  | LockStmt
  | ConstraintsSetStmt
  | CheckPointStmt
  | BarrierStmt (id : String)
  | ReindexStmt (kind : ObjectType)
  | CreateConversionStmt
  | CreateCastStmt
  | DropCastStmt
  | CreateOpClassStmt
  | CreateOpFamilyStmt
  | AlterOpFamilyStmt
  | RemoveOpClassStmt
  | RemoveOpFamilyStmt
  | AlterTSDictionaryStmt
  | AlterTSConfigurationStmt
  /-- `RemoteQuery` plan node (PGXC): carries the statement text and the
  execution-plan fields read by `ExecRemoteUtility`. -/
  | RemoteQuery (sql_statement : String) (force_autocommit : Bool)
      (exec_type : RemoteQueryExecType)
  | CleanConnStmt

/-- `AlterObjectTypeCommandTag` from `utility.c`: command tag for ALTER
with an `ObjectType`. -/
def AlterObjectTypeCommandTag (objtype : ObjectType) : String :=
  match objtype with
  | .OBJECT_AGGREGATE => "ALTER AGGREGATE"
  | .OBJECT_ATTRIBUTE => "ALTER TYPE"
  | .OBJECT_CAST => "ALTER CAST"
  | .OBJECT_COLLATION => "ALTER COLLATION"
  | .OBJECT_COLUMN => "ALTER TABLE"
  | .OBJECT_CONSTRAINT => "ALTER TABLE"
  | .OBJECT_CONVERSION => "ALTER CONVERSION"
  | .OBJECT_DATABASE => "ALTER DATABASE"
  | .OBJECT_DOMAIN => "ALTER DOMAIN"
  | .OBJECT_EXTENSION => "ALTER EXTENSION"
  | .OBJECT_FDW => "ALTER FOREIGN DATA WRAPPER"
  | .OBJECT_FOREIGN_SERVER => "ALTER SERVER"
  | .OBJECT_FOREIGN_TABLE => "ALTER FOREIGN TABLE"
  | .OBJECT_FUNCTION => "ALTER FUNCTION"
  | .OBJECT_INDEX => "ALTER INDEX"
  | .OBJECT_LANGUAGE => "ALTER LANGUAGE"
  | .OBJECT_LARGEOBJECT => "ALTER LARGE OBJECT"
  | .OBJECT_OPCLASS => "ALTER OPERATOR CLASS"
  | .OBJECT_OPERATOR => "ALTER OPERATOR"
  | .OBJECT_OPFAMILY => "ALTER OPERATOR FAMILY"
  | .OBJECT_ROLE => "ALTER ROLE"
  | .OBJECT_RULE => "ALTER RULE"
  | .OBJECT_SCHEMA => "ALTER SCHEMA"
  | .OBJECT_SEQUENCE => "ALTER SEQUENCE"
  | .OBJECT_TABLE => "ALTER TABLE"
  | .OBJECT_TABLESPACE => "ALTER TABLESPACE"
  | .OBJECT_TRIGGER => "ALTER TRIGGER"
  | .OBJECT_TSCONFIGURATION => "ALTER TEXT SEARCH CONFIGURATION"
  | .OBJECT_TSDICTIONARY => "ALTER TEXT SEARCH DICTIONARY"
  | .OBJECT_TSPARSER => "ALTER TEXT SEARCH PARSER"
  | .OBJECT_TSTEMPLATE => "ALTER TEXT SEARCH TEMPLATE"
  | .OBJECT_TYPE => "ALTER TYPE"
  | .OBJECT_VIEW => "ALTER VIEW"

/-- `CreateCommandTag` from `utility.c`, restricted to the raw utility
node tags of this embedding (the `T_PlannedStmt`/`T_Query` plannable
cases read planner fields not represented here and are not needed by any
claim; `T_PlannedStmt` is mapped like its `DECLARE CURSOR` payload). -/
def CreateCommandTag (parsetree : Node) : String :=
  match parsetree with
  | .InsertStmt => "INSERT"
  | .DeleteStmt => "DELETE"
  | .UpdateStmt => "UPDATE"
  | .SelectStmt => "SELECT"
  | .TransactionStmt kind _ _ =>
    match kind with
    | .TRANS_STMT_BEGIN => "BEGIN"
    | .TRANS_STMT_START => "START TRANSACTION"
    | .TRANS_STMT_COMMIT => "COMMIT"
    | .TRANS_STMT_ROLLBACK => "ROLLBACK"
    | .TRANS_STMT_ROLLBACK_TO => "ROLLBACK"
    | .TRANS_STMT_SAVEPOINT => "SAVEPOINT"
    | .TRANS_STMT_RELEASE => "RELEASE"
    | .TRANS_STMT_PREPARE => "PREPARE TRANSACTION"
    | .TRANS_STMT_COMMIT_PREPARED => "COMMIT PREPARED"
    | .TRANS_STMT_ROLLBACK_PREPARED => "ROLLBACK PREPARED"
  | .PlannedStmt _ => "DECLARE CURSOR"
  | .ClosePortalStmt portalname =>
    match portalname with
    | none => "CLOSE CURSOR ALL"
    | some _ => "CLOSE CURSOR"
  | .FetchStmt _ ismove => if ismove then "MOVE" else "FETCH"
  | .CreateDomainStmt => "CREATE DOMAIN"
  | .CreateSchemaStmt => "CREATE SCHEMA"
  | .CreateStmt => "CREATE TABLE"
  | .CreateTableSpaceStmt => "CREATE TABLESPACE"
  | .DropTableSpaceStmt => "DROP TABLESPACE"
  | .AlterTableSpaceOptionsStmt => "ALTER TABLESPACE"
  | .CreateExtensionStmt => "CREATE EXTENSION"
  | .AlterExtensionStmt => "ALTER EXTENSION"
  | .AlterExtensionContentsStmt => "ALTER EXTENSION"
  | .CreateFdwStmt => "CREATE FOREIGN DATA WRAPPER"
  | .AlterFdwStmt => "ALTER FOREIGN DATA WRAPPER"
  | .DropFdwStmt => "DROP FOREIGN DATA WRAPPER"
  | .CreateForeignServerStmt => "CREATE SERVER"
  | .AlterForeignServerStmt => "ALTER SERVER"
  | .DropForeignServerStmt => "DROP SERVER"
  | .CreateUserMappingStmt => "CREATE USER MAPPING"
  | .AlterUserMappingStmt => "ALTER USER MAPPING"
  | .DropUserMappingStmt => "DROP USER MAPPING"
  | .CreateForeignTableStmt => "CREATE FOREIGN TABLE"
  | .DropStmt removeType =>
    match removeType with
    | .OBJECT_TABLE => "DROP TABLE"
    | .OBJECT_SEQUENCE => "DROP SEQUENCE"
    | .OBJECT_VIEW => "DROP VIEW"
    | .OBJECT_INDEX => "DROP INDEX"
    | .OBJECT_TYPE => "DROP TYPE"
    | .OBJECT_DOMAIN => "DROP DOMAIN"
    | .OBJECT_COLLATION => "DROP COLLATION"
    | .OBJECT_CONVERSION => "DROP CONVERSION"
    | .OBJECT_SCHEMA => "DROP SCHEMA"
    | .OBJECT_TSPARSER => "DROP TEXT SEARCH PARSER"
    | .OBJECT_TSDICTIONARY => "DROP TEXT SEARCH DICTIONARY"
    | .OBJECT_TSTEMPLATE => "DROP TEXT SEARCH TEMPLATE"
    | .OBJECT_TSCONFIGURATION => "DROP TEXT SEARCH CONFIGURATION"
    | .OBJECT_FOREIGN_TABLE => "DROP FOREIGN TABLE"
    | .OBJECT_EXTENSION => "DROP EXTENSION"
    | _ => "???"
  | .TruncateStmt => "TRUNCATE TABLE"
  | .CommentStmt _ => "COMMENT"
  | .SecLabelStmt => "SECURITY LABEL"
  | .CopyStmt => "COPY"
  | .RenameStmt renameType _ => AlterObjectTypeCommandTag renameType
  | .AlterObjectSchemaStmt objectType _ => AlterObjectTypeCommandTag objectType
  | .AlterOwnerStmt objectType => AlterObjectTypeCommandTag objectType
  | .AlterTableStmt relkind _ => AlterObjectTypeCommandTag relkind
  | .AlterDomainStmt _ => "ALTER DOMAIN"
  | .AlterFunctionStmt => "ALTER FUNCTION"
  | .GrantStmt is_grant _ _ _ => if is_grant then "GRANT" else "REVOKE"
  | .GrantRoleStmt is_grant => if is_grant then "GRANT ROLE" else "REVOKE ROLE"
  | .AlterDefaultPrivilegesStmt => "ALTER DEFAULT PRIVILEGES"
  | .DefineStmt kind =>
    match kind with
    | .OBJECT_AGGREGATE => "CREATE AGGREGATE"
    | .OBJECT_OPERATOR => "CREATE OPERATOR"
    | .OBJECT_TYPE => "CREATE TYPE"
    | .OBJECT_TSPARSER => "CREATE TEXT SEARCH PARSER"
    | .OBJECT_TSDICTIONARY => "CREATE TEXT SEARCH DICTIONARY"
    | .OBJECT_TSTEMPLATE => "CREATE TEXT SEARCH TEMPLATE"
    | .OBJECT_TSCONFIGURATION => "CREATE TEXT SEARCH CONFIGURATION"
    | .OBJECT_COLLATION => "CREATE COLLATION"
    | _ => "???"
  | .CompositeTypeStmt => "CREATE TYPE"
  | .CreateEnumStmt => "CREATE TYPE"
  | .AlterEnumStmt => "ALTER TYPE"
  | .ViewStmt => "CREATE VIEW"
  | .CreateFunctionStmt => "CREATE FUNCTION"
  | .IndexStmt _ _ => "CREATE INDEX"
  | .RuleStmt _ => "CREATE RULE"
  | .CreateSeqStmt => "CREATE SEQUENCE"
  | .AlterSeqStmt => "ALTER SEQUENCE"
  | .RemoveFuncStmt kind =>
    match kind with
    | .OBJECT_FUNCTION => "DROP FUNCTION"
    | .OBJECT_AGGREGATE => "DROP AGGREGATE"
    | .OBJECT_OPERATOR => "DROP OPERATOR"
    | _ => "???"
  | .DoStmt => "DO"
  | .CreatedbStmt => "CREATE DATABASE"
  | .AlterDatabaseStmt => "ALTER DATABASE"
  | .AlterDatabaseSetStmt => "ALTER DATABASE"
  | .DropdbStmt _ => "DROP DATABASE"
  | .NotifyStmt => "NOTIFY"
  | .ListenStmt => "LISTEN"
  | .UnlistenStmt _ => "UNLISTEN"
  | .LoadStmt => "LOAD"
  | .ClusterStmt => "CLUSTER"
  | .VacuumStmt isVacuum => if isVacuum then "VACUUM" else "ANALYZE"
  | .ExplainStmt => "EXPLAIN"
  | .VariableSetStmt kind _ =>
    match kind with
    | .VAR_SET_VALUE => "SET"
    | .VAR_SET_CURRENT => "SET"
    | .VAR_SET_DEFAULT => "SET"
    | .VAR_SET_MULTI => "SET"
    | .VAR_RESET => "RESET"
    | .VAR_RESET_ALL => "RESET"
  | .VariableShowStmt _ => "SHOW"
  | .DiscardStmt target =>
    match target with
    | .DISCARD_ALL => "DISCARD ALL"
    | .DISCARD_PLANS => "DISCARD PLANS"
    | .DISCARD_TEMP => "DISCARD TEMP"
  | .CreateTrigStmt => "CREATE TRIGGER"
  | .DropPropertyStmt removeType _ =>
    match removeType with
    | .OBJECT_TRIGGER => "DROP TRIGGER"
    | .OBJECT_RULE => "DROP RULE"
    | _ => "???"
  | .CreatePLangStmt => "CREATE LANGUAGE"
  | .DropPLangStmt => "DROP LANGUAGE"
  | .CreateRoleStmt => "CREATE ROLE"
  | .AlterRoleStmt => "ALTER ROLE"
  | .AlterRoleSetStmt => "ALTER ROLE"
  | .DropRoleStmt => "DROP ROLE"
  | .DropOwnedStmt => "DROP OWNED"
  | .ReassignOwnedStmt => "REASSIGN OWNED"
  | .LockStmt => "LOCK TABLE"
  | .ConstraintsSetStmt => "SET CONSTRAINTS"
  | .CheckPointStmt => "CHECKPOINT"
  | .BarrierStmt _ => "BARRIER"
  | .ReindexStmt _ => "REINDEX"
  | .CreateConversionStmt => "CREATE CONVERSION"
  | .CreateCastStmt => "CREATE CAST"
  | .DropCastStmt => "DROP CAST"
  | .CreateOpClassStmt => "CREATE OPERATOR CLASS"
  | .CreateOpFamilyStmt => "CREATE OPERATOR FAMILY"
  | .AlterOpFamilyStmt => "ALTER OPERATOR FAMILY"
  | .RemoveOpClassStmt => "DROP OPERATOR CLASS"
  | .RemoveOpFamilyStmt => "DROP OPERATOR FAMILY"
  | .AlterTSDictionaryStmt => "ALTER TEXT SEARCH DICTIONARY"
  | .AlterTSConfigurationStmt => "ALTER TEXT SEARCH CONFIGURATION"
  | .PrepareStmt => "PREPARE"
  | .ExecuteStmt _ _ => "EXECUTE"
  | .DeallocateStmt name =>
    match name with
    | none => "DEALLOCATE ALL"
    | some _ => "DEALLOCATE"
  | .RemoteQuery _ _ _ => "???"
  | .CleanConnStmt => "???"

/-- Errors raised by `ereport(ERROR, ...)` / `elog(ERROR, ...)` /
failed `Assert`s while dispatching; raising one aborts the current
command. -/
inductive PGError where
  /-- `ERRCODE_READ_ONLY_SQL_TRANSACTION`: "cannot execute %s in a
  read-only transaction". -/
  | readOnlySqlTransaction (cmdname : String)
  /-- `ERRCODE_READ_ONLY_SQL_TRANSACTION`: "cannot execute %s during
  recovery". -/
  | commandDuringRecovery (cmdname : String)
  /-- `ERRCODE_INSUFFICIENT_PRIVILEGE`: "cannot execute %s within
  security-restricted operation". -/
  | securityRestrictedOp (cmdname : String)
  /-- `ERRCODE_INSUFFICIENT_PRIVILEGE` with a bespoke message. -/
  | insufficientPrivilege (msg : String)
  /-- `ERRCODE_FEATURE_NOT_SUPPORTED`. -/
  | featureNotSupported (msg : String)
  /-- `ERRCODE_STATEMENT_TOO_COMPLEX` (used by the PGXC SAVEPOINT
  rejection). -/
  | statementTooComplex (msg : String)
  /-- `RequireTransactionChain` failure: "%s can only be used in
  transaction blocks". -/
  | requiresTransactionBlock (stmtType : String)
  /-- `PreventTransactionChain` failure: "%s cannot run inside a
  transaction block". -/
  | forbiddenInTransactionBlock (stmtType : String)
  /-- Savepoint-stack failure: "no such savepoint". -/
  | noSuchSavepoint (name : String)
  /-- `elog(ERROR, ...)` internal-consistency failure. -/
  | internalElog (msg : String)
  /-- Failed `Assert` (internal-consistency failure). -/
  | assertFailure (msg : String)
  /-- Recursion bound of the embedding exhausted (no C counterpart;
  theorems always supply enough fuel). -/
  | outOfFuel
deriving DecidableEq

/-- Observable calls the dispatcher makes into external subsystems, in
order. -/
inductive Event where
  /-- A call into a named external leaf operation. -/
  | invoke (leaf : String)
  /-- `CommandCounterIncrement()`. -/
  | cci
  /-- `ExecRemoteUtility` on a `RemoteQuery` step: fan the statement
  text out to the selected node set. -/
  | remoteUtility (sql : String) (force_autocommit : Bool)
      (exec_type : RemoteQueryExecType)
  /-- `PGXCNodeBegin()`. -/
  | pgxcNodeBegin
  /-- `PGXCNodePrepare(gid)`: the distributed-prepare handshake. -/
  | pgxcNodePrepare (gid : String)
  /-- `PGXCNodeCommitPrepared(gid)` (resolves remotely, then locally,
  under the barrier lock). -/
  | pgxcNodeCommitPrepared (gid : String)
  /-- `PGXCNodeRollbackPrepared(gid)`. -/
  | pgxcNodeRollbackPrepared (gid : String)
  /-- `PGXCNodeSetBeginQuery(begin_string)`. -/
  | pgxcNodeSetBeginQuery
  /-- `SetPGVariable(name, value, true)` for a BEGIN option. -/
  | setPGVariable (name : String)
  /-- `BeginTransactionBlock()`. -/
  | beginTransactionBlock
  /-- `EndTransactionBlock(...)`; the argument is the PGXC
  commit-remote flag at the call site. -/
  | endTransactionBlock (commitRemote : Bool)
  /-- `PrepareTransactionBlock(gid)`: the durable local prepare. -/
  | prepareTransactionBlock (gid : String)
  /-- `UserAbortTransactionBlock()`. -/
  | userAbortTransactionBlock
  /-- `DefineSavepoint(name)`. -/
  | defineSavepoint (name : String)
  /-- `ReleaseSavepoint(options)`. -/
  | releaseSavepoint
  /-- `RollbackToSavepoint(options)`. -/
  | rollbackToSavepoint
  /-- `FinishPreparedTransaction(gid, isCommit)`. -/
  | finishPrepared (gid : String) (isCommit : Bool)
  /-- `RequestCheckpoint` with the given flag bits
  (`CHECKPOINT_IMMEDIATE`, `CHECKPOINT_WAIT`, `CHECKPOINT_FORCE`). -/
  | requestCheckpoint (immediate : Bool) (wait : Bool) (force : Bool)
deriving DecidableEq

/-- Build-time / connection-role configuration: the `PGXC` conditional
compilation flag, `IS_PGXC_COORDINATOR`, and `IsConnFromCoord()`. -/
structure Config where
  pgxc : Bool
  isPgxcCoordinator : Bool
  connFromCoord : Bool
deriving DecidableEq

/-- Modelled from the spec: the session-transaction state machine, "
{Idle, InBlock, ...}"; `abortedBlock` is the InBlock sub-state in which
the block "was already marked aborted" so that a commit fails
(`xact.c` is outside the excerpt). -/
inductive BlockState where
  | idle
  | inBlock
  | abortedBlock
deriving DecidableEq

/-- A tuple descriptor (`TupleDesc`), abstracted to a label. -/
structure TupleDesc where
  label : String
deriving DecidableEq

/-- The observable session/transaction state read by the dispatcher:
`XactReadOnly`, `RecoveryInProgress()`,
`InSecurityRestrictedOperation()`, `superuser()`, the spec-modelled
transaction-block state with its savepoint stack, and the session's
portals and prepared statements (each reduced to the one field
`utility.c` reads: the optional result tuple descriptor). -/
structure SessionState where
  xactReadOnly : Bool
  recoveryInProgress : Bool
  inSecurityRestrictedOperation : Bool
  superuser : Bool
  blockState : BlockState
  savepoints : List String
  portals : List (String × Option TupleDesc)
  preparedStmts : List (String × Option TupleDesc)
deriving DecidableEq

/-- Results of external calls that return data, supplied as inputs to
one dispatch call. -/
structure Externals where
  /-- Return value of `PGXCNodePrepare(gid)`: `true` when the local node
  must keep a durable 2PC record (a DDL was involved in the prepared
  transaction cluster-wide). -/
  pgxcNodePrepareResult : Bool
  /-- Return value of `PGXCNodeRollbackPrepared(gid)`. -/
  pgxcNodeRollbackResult : Bool
  /-- Sub-statement list produced by `transformCreateStmt`
  (parse analysis, external). -/
  transformCreateStmtResult : List Node
  /-- Sub-statement list produced by `transformAlterTableStmt`. -/
  transformAlterTableStmtResult : List Node
  /-- Row count returned by `DoCopy`. -/
  doCopyProcessed : Nat
  /-- Whether `PoolManagerSetCommand` returns ≥ 0. -/
  poolCommandOk : Bool
  /-- Completion string written by `PerformPortalFetch` when given a
  buffer. -/
  fetchCompletion : String
  /-- Completion string written by `ExecuteQuery` when given a
  buffer. -/
  executeCompletion : String
  /-- Completion string written by `RequestBarrier` when given a
  buffer. -/
  barrierCompletion : String

/-- Result of one dispatch call: final session state, the trace of
external calls, the caller's completion-tag buffer (`none` = the caller
passed a NULL pointer), and the error that aborted the command, if
any. -/
structure UResult where
  st : SessionState
  events : List Event
  tag : Option String
  err : Option PGError

/-- `PreventCommandIfReadOnly` from `utility.c`: throw error if
`XactReadOnly`. -/
def PreventCommandIfReadOnly (xactReadOnly : Bool) (cmdname : String) :
    Option PGError :=
  if xactReadOnly then some (.readOnlySqlTransaction cmdname) else none

/-- `PreventCommandDuringRecovery` from `utility.c`: throw error if
`RecoveryInProgress()`. -/
def PreventCommandDuringRecovery (st : SessionState) (cmdname : String) :
    Option PGError :=
  if st.recoveryInProgress then some (.commandDuringRecovery cmdname)
  else none

/-- `CheckRestrictedOperation` from `utility.c`: throw error for a
hazardous command inside a security-restriction context. -/
def CheckRestrictedOperation (st : SessionState) (cmdname : String) :
    Option PGError :=
  if st.inSecurityRestrictedOperation then
    some (.securityRestrictedOp cmdname)
  else none

/-- The deny-list of `check_xact_readonly`: exactly the node tags its
`switch` enumerates before the `PreventCommandIfReadOnly` call (every
other tag falls through the `default: do nothing`). -/
def xactReadOnlyDenied (parsetree : Node) : Bool :=
  match parsetree with
  | .AlterDatabaseStmt | .AlterDatabaseSetStmt | .AlterDomainStmt _
  | .AlterFunctionStmt | .AlterRoleStmt | .AlterRoleSetStmt
  | .AlterObjectSchemaStmt _ _ | .AlterOwnerStmt _ | .AlterSeqStmt
  | .AlterTableStmt _ _ | .RenameStmt _ _ | .CommentStmt _
  | .DefineStmt _ | .CreateCastStmt | .CreateConversionStmt
  | .CreatedbStmt | .CreateDomainStmt | .CreateFunctionStmt
  | .CreateRoleStmt | .IndexStmt _ _ | .CreatePLangStmt
  | .CreateOpClassStmt | .CreateOpFamilyStmt | .AlterOpFamilyStmt
  | .RuleStmt _ | .CreateSchemaStmt | .CreateSeqStmt | .CreateStmt
  | .CreateTableSpaceStmt | .CreateTrigStmt | .CompositeTypeStmt
  | .CreateEnumStmt | .AlterEnumStmt | .ViewStmt | .DropCastStmt
  | .DropStmt _ | .DropdbStmt _ | .DropTableSpaceStmt
  | .RemoveFuncStmt _ | .DropRoleStmt | .DropPLangStmt
  | .RemoveOpClassStmt | .RemoveOpFamilyStmt | .DropPropertyStmt _ _
  | .GrantStmt _ _ _ _ | .GrantRoleStmt _
  | .AlterDefaultPrivilegesStmt | .TruncateStmt | .DropOwnedStmt
  | .ReassignOwnedStmt | .AlterTSDictionaryStmt
  | .AlterTSConfigurationStmt | .CreateExtensionStmt
  | .AlterExtensionStmt | .AlterExtensionContentsStmt | .CreateFdwStmt
  | .AlterFdwStmt | .DropFdwStmt | .CreateForeignServerStmt
  | .AlterForeignServerStmt | .DropForeignServerStmt
  | .CreateUserMappingStmt | .AlterUserMappingStmt
  | .DropUserMappingStmt | .AlterTableSpaceOptionsStmt
  | .CreateForeignTableStmt | .SecLabelStmt => true
  | _ => false

/-- `check_xact_readonly` from `utility.c`: under `XactReadOnly`, a
deny-listed node tag is rejected through
`PreventCommandIfReadOnly(CreateCommandTag(parsetree))`. -/
def check_xact_readonly (xactReadOnly : Bool) (parsetree : Node) :
    Option PGError :=
  if !xactReadOnly then none
  else if xactReadOnlyDenied parsetree then
    PreventCommandIfReadOnly xactReadOnly (CreateCommandTag parsetree)
  else none

/-- `IsTransactionBlock()` (xact.c, outside the excerpt), on the
spec-modelled block state: true inside an explicit block, aborted or
not. -/
def IsTransactionBlock (st : SessionState) : Bool :=
  match st.blockState with
  | .idle => false
  | .inBlock => true
  | .abortedBlock => true

/-- Modelled from the spec: `BeginTransactionBlock` (xact.c, outside the
excerpt) — "BEGIN/START: Idle → InBlock". -/
def BeginTransactionBlock (st : SessionState) : SessionState :=
  { st with blockState := .inBlock }

/-- Modelled from the spec: `EndTransactionBlock` (xact.c, outside the
excerpt) — "COMMIT: InBlock/Idle → Idle. If the underlying commit fails
(e.g., because the block was already marked aborted)" it reports
failure.  Returns the new state and the success flag. -/
def EndTransactionBlock (st : SessionState) : SessionState × Bool :=
  ({ st with blockState := .idle, savepoints := [] },
   if st.blockState = .abortedBlock then false else true)

/-- Modelled from the spec: `PrepareTransactionBlock` (xact.c, outside
the excerpt) — the durable local prepare; succeeds from an open
non-aborted block. -/
def PrepareTransactionBlock (st : SessionState) (_gid : String) :
    SessionState × Bool :=
  ({ st with blockState := .idle, savepoints := [] },
   if st.blockState = .inBlock then true else false)

/-- Modelled from the spec: `UserAbortTransactionBlock` (xact.c,
outside the excerpt) — "ROLLBACK: → Idle, unconditionally". -/
def UserAbortTransactionBlock (st : SessionState) : SessionState :=
  { st with blockState := .idle, savepoints := [] }

/-- Modelled from the spec: `RequireTransactionChain` (xact.c, outside
the excerpt) — "SAVEPOINT / RELEASE / ROLLBACK TO [/ LOCK TABLE]:
require InBlock"; a non-top-level caller is exempt (it is already
inside a function's transaction). -/
def RequireTransactionChain (st : SessionState) (isTopLevel : Bool)
    (stmtType : String) : Option PGError :=
  if IsTransactionBlock st then none
  else if !isTopLevel then none
  else some (.requiresTransactionBlock stmtType)

/-- Modelled from the spec: `PreventTransactionChain` (xact.c, outside
the excerpt) — commands that "forbid being inside" an explicit
transaction block. -/
def PreventTransactionChain (st : SessionState) (_isTopLevel : Bool)
    (stmtType : String) : Option PGError :=
  if IsTransactionBlock st then
    some (.forbiddenInTransactionBlock stmtType)
  else none

/-- Modelled from the spec: `DefineSavepoint` (xact.c, outside the
excerpt) — push a name on "a nested savepoint stack". -/
def DefineSavepoint (st : SessionState) (name : String) : SessionState :=
  { st with savepoints := name :: st.savepoints }

/-- The savepoint name carried in a transaction statement's `options`
list (the `foreach` over `DefElem`s looking for "savepoint_name"). -/
def savepointNameOf (options : List (String × String)) : Option String :=
  (options.filter (fun p => p.fst = "savepoint_name")).getLast?.map
    Prod.snd

/-- Modelled from the spec: `ReleaseSavepoint` (xact.c, outside the
excerpt) — pop the named savepoint and everything above it. -/
def ReleaseSavepoint (st : SessionState)
    (options : List (String × String)) : SessionState × Option PGError :=
  match savepointNameOf options with
  | none => (st, some (.assertFailure "savepoint name"))
  | some n =>
    if st.savepoints.contains n then
      ({ st with savepoints :=
          (st.savepoints.dropWhile (fun s => s ≠ n)).drop 1 }, none)
    else (st, some (.noSuchSavepoint n))

/-- Modelled from the spec: `RollbackToSavepoint` (xact.c, outside the
excerpt) — roll back to the named savepoint; the savepoint itself
survives ("CommitTransactionCommand is in charge of re-defining the
savepoint again"). -/
def RollbackToSavepoint (st : SessionState)
    (options : List (String × String)) : SessionState × Option PGError :=
  match savepointNameOf options with
  | none => (st, some (.assertFailure "savepoint name"))
  | some n =>
    if st.savepoints.contains n then
      ({ st with
          blockState := .inBlock
          savepoints := st.savepoints.dropWhile (fun s => s ≠ n) }, none)
    else (st, some (.noSuchSavepoint n))

/-- `ExecUtilityStmtOnNodes` from `utility.c`: build a `RemoteQuery`
step and hand it to `ExecRemoteUtility`, unless the connection
originates from another Coordinator ("If the DDL is received from a
remote Coordinator, it is not possible to push down DDL to
Datanodes"). -/
def ExecUtilityStmtOnNodes (cfg : Config) (queryString : String)
    (force_autocommit : Bool) (exec_type : RemoteQueryExecType) :
    List Event :=
  if !cfg.connFromCoord then
    [.remoteUtility queryString force_autocommit exec_type]
  else []

/-- Modelled from the spec: `AddRemoteQueryNode` (PGXC planner, outside
the excerpt) — "Add a RemoteQuery node for a query at top level":
append a `RemoteQuery` step carrying the verbatim statement text and
the chosen execution node set. -/
def AddRemoteQueryNode (stmts : List Node) (queryString : String)
    (remoteExecType : RemoteQueryExecType) : List Node :=
  stmts ++ [.RemoteQuery queryString false remoteExecType]

/-- The recurring `#ifdef PGXC if (IS_PGXC_COORDINATOR)
ExecUtilityStmtOnNodes(...)` epilogue of many branches. -/
def pgxcCoordRemote (cfg : Config) (queryString : String)
    (force_autocommit : Bool) (exec_type : RemoteQueryExecType) :
    List Event :=
  if cfg.pgxc && cfg.isPgxcCoordinator then
    ExecUtilityStmtOnNodes cfg queryString force_autocommit exec_type
  else []

/-- The recurring `#ifdef PGXC if (IS_PGXC_COORDINATOR &&
!IsConnFromCoord()) ExecUtilityStmtOnNodes(...)` epilogue. -/
def pgxcOriginRemote (cfg : Config) (queryString : String)
    (force_autocommit : Bool) (exec_type : RemoteQueryExecType) :
    List Event :=
  if cfg.pgxc && cfg.isPgxcCoordinator && !cfg.connFromCoord then
    ExecUtilityStmtOnNodes cfg queryString force_autocommit exec_type
  else []

mutual

/-- `standard_ProcessUtility` from `utility.c`, branch by branch.  The
`fuel` bound only limits the recursion through generated sub-statement
lists (which the C code performs on heap lists); every theorem supplies
enough fuel. -/
def standard_ProcessUtility (fuel : Nat) (cfg : Config) (ext : Externals)
    (st : SessionState) (parsetree : Node) (queryString : String)
    (isTopLevel : Bool) (completionTag : Option String) : UResult :=
  match fuel with
  | 0 => ⟨st, [], completionTag, some .outOfFuel⟩
  | Nat.succ fuel =>
    match check_xact_readonly st.xactReadOnly parsetree with
    | some e => ⟨st, [], completionTag, some e⟩
    | none =>
      let tag := completionTag.map (fun _ => "")
      match parsetree with
      | .TransactionStmt kind gid options =>
        match kind with
        | .TRANS_STMT_BEGIN | .TRANS_STMT_START =>
          let preEvents :=
            if cfg.pgxc && cfg.isPgxcCoordinator && !cfg.connFromCoord
            then [Event.pgxcNodeBegin] else []
          let optEvents := options.filterMap (fun p =>
            if p.fst = "transaction_isolation" ||
               p.fst = "transaction_read_only" ||
               p.fst = "transaction_deferrable"
            then some (Event.setPGVariable p.fst) else none)
          let rebuildEvents :=
            if cfg.pgxc && cfg.isPgxcCoordinator && !cfg.connFromCoord
            then [Event.pgxcNodeSetBeginQuery] else []
          ⟨BeginTransactionBlock st,
            preEvents ++ [Event.beginTransactionBlock] ++ optEvents ++
              rebuildEvents, tag, none⟩
        | .TRANS_STMT_COMMIT =>
          let r := EndTransactionBlock st
          ⟨r.fst, [Event.endTransactionBlock true],
            if r.snd then tag else tag.map (fun _ => "ROLLBACK"), none⟩
        | .TRANS_STMT_PREPARE =>
          match PreventCommandDuringRecovery st "PREPARE TRANSACTION" with
          | some e => ⟨st, [], tag, some e⟩
          | none =>
            let isOrigin :=
              cfg.pgxc && cfg.isPgxcCoordinator && !cfg.connFromCoord
            let handshake :=
              if isOrigin then [Event.pgxcNodePrepare gid] else []
            let operation_local :=
              if cfg.pgxc && cfg.connFromCoord then true
              else if isOrigin then ext.pgxcNodePrepareResult
              else false
            if !cfg.pgxc || operation_local then
              let r := PrepareTransactionBlock st gid
              ⟨r.fst, handshake ++ [Event.prepareTransactionBlock gid],
                if r.snd then tag else tag.map (fun _ => "ROLLBACK"),
                none⟩
            else
              let r := EndTransactionBlock st
              ⟨r.fst, handshake ++ [Event.endTransactionBlock false],
                if r.snd then tag else tag.map (fun _ => "ROLLBACK"),
                none⟩
        | .TRANS_STMT_COMMIT_PREPARED =>
          match PreventTransactionChain st isTopLevel "COMMIT PREPARED" with
          | some e => ⟨st, [], tag, some e⟩
          | none =>
            match PreventCommandDuringRecovery st "COMMIT PREPARED" with
            | some e => ⟨st, [], tag, some e⟩
            | none =>
              if cfg.pgxc then
                if cfg.isPgxcCoordinator && !cfg.connFromCoord then
                  ⟨st, [Event.pgxcNodeCommitPrepared gid], tag, none⟩
                else if cfg.connFromCoord then
                  ⟨st, [Event.finishPrepared gid true], tag, none⟩
                else ⟨st, [], tag, none⟩
              else ⟨st, [Event.finishPrepared gid true], tag, none⟩
        | .TRANS_STMT_ROLLBACK_PREPARED =>
          match PreventTransactionChain st isTopLevel "ROLLBACK PREPARED" with
          | some e => ⟨st, [], tag, some e⟩
          | none =>
            match PreventCommandDuringRecovery st "ROLLBACK PREPARED" with
            | some e => ⟨st, [], tag, some e⟩
            | none =>
              if cfg.pgxc then
                let isOrigin := cfg.isPgxcCoordinator && !cfg.connFromCoord
                let handshake :=
                  if isOrigin then [Event.pgxcNodeRollbackPrepared gid]
                  else []
                let operation_local :=
                  if isOrigin then ext.pgxcNodeRollbackResult else false
                if operation_local || cfg.connFromCoord then
                  ⟨st, handshake ++ [Event.finishPrepared gid false], tag,
                    none⟩
                else ⟨st, handshake, tag, none⟩
              else ⟨st, [Event.finishPrepared gid false], tag, none⟩
        | .TRANS_STMT_ROLLBACK =>
          ⟨UserAbortTransactionBlock st, [Event.userAbortTransactionBlock],
            tag, none⟩
        | .TRANS_STMT_SAVEPOINT =>
          if cfg.pgxc then
            ⟨st, [], tag,
              some (.statementTooComplex "SAVEPOINT is not yet supported.")⟩
          else
            match RequireTransactionChain st isTopLevel "SAVEPOINT" with
            | some e => ⟨st, [], tag, some e⟩
            | none =>
              match savepointNameOf options with
              | none =>
                ⟨st, [], tag, some (.assertFailure "PointerIsValid(name)")⟩
              | some name =>
                ⟨DefineSavepoint st name, [Event.defineSavepoint name],
                  tag, none⟩
        | .TRANS_STMT_RELEASE =>
          match RequireTransactionChain st isTopLevel "RELEASE SAVEPOINT" with
          | some e => ⟨st, [], tag, some e⟩
          | none =>
            let r := ReleaseSavepoint st options
            ⟨r.fst, [Event.releaseSavepoint], tag, r.snd⟩
        | .TRANS_STMT_ROLLBACK_TO =>
          match RequireTransactionChain st isTopLevel
              "ROLLBACK TO SAVEPOINT" with
          | some e => ⟨st, [], tag, some e⟩
          | none =>
            let r := RollbackToSavepoint st options
            ⟨r.fst, [Event.rollbackToSavepoint], tag, r.snd⟩
      | .PlannedStmt utilityIsDeclareCursor =>
        if !utilityIsDeclareCursor then
          ⟨st, [], tag, some (.internalElog
            "non-DECLARE CURSOR PlannedStmt passed to ProcessUtility")⟩
        else ⟨st, [Event.invoke "PerformCursorOpen"], tag, none⟩
      | .ClosePortalStmt _ =>
        match CheckRestrictedOperation st "CLOSE" with
        | some e => ⟨st, [], tag, some e⟩
        | none => ⟨st, [Event.invoke "PerformPortalClose"], tag, none⟩
      | .FetchStmt _ _ =>
        ⟨st, [Event.invoke "PerformPortalFetch"],
          tag.map (fun _ => ext.fetchCompletion), none⟩
      | .CreateSchemaStmt =>
        ⟨st, [Event.invoke "CreateSchemaCommand"], tag, none⟩
      | .CreateStmt | .CreateForeignTableStmt =>
        let stmts := ext.transformCreateStmtResult
        let stmts :=
          if cfg.pgxc && isTopLevel then
            AddRemoteQueryNode stmts queryString .EXEC_ON_ALL_NODES
          else stmts
        let r := createStmtSubList fuel cfg ext st stmts queryString
        ⟨r.fst, r.snd.fst, tag, r.snd.snd⟩
      | .CreateTableSpaceStmt =>
        if cfg.pgxc then
          ⟨st, [], tag, some (.featureNotSupported
            "Postgres-XC does not support TABLESPACE yet")⟩
        else
          match PreventTransactionChain st isTopLevel "CREATE TABLESPACE" with
          | some e => ⟨st, [], tag, some e⟩
          | none => ⟨st, [Event.invoke "CreateTableSpace"], tag, none⟩
      | .DropTableSpaceStmt =>
        match PreventTransactionChain st isTopLevel "DROP TABLESPACE" with
        | some e => ⟨st, [], tag, some e⟩
        | none => ⟨st, [Event.invoke "DropTableSpace"], tag, none⟩
      | .AlterTableSpaceOptionsStmt =>
        ⟨st, [Event.invoke "AlterTableSpaceOptions"], tag, none⟩
      | .CreateExtensionStmt =>
        ⟨st, [Event.invoke "CreateExtension"], tag, none⟩
      | .AlterExtensionStmt =>
        ⟨st, [Event.invoke "ExecAlterExtensionStmt"], tag, none⟩
      | .AlterExtensionContentsStmt =>
        ⟨st, [Event.invoke "ExecAlterExtensionContentsStmt"], tag, none⟩
      | .CreateFdwStmt =>
        ⟨st, [Event.invoke "CreateForeignDataWrapper"], tag, none⟩
      | .AlterFdwStmt =>
        ⟨st, [Event.invoke "AlterForeignDataWrapper"], tag, none⟩
      | .DropFdwStmt =>
        ⟨st, [Event.invoke "RemoveForeignDataWrapper"], tag, none⟩
      | .CreateForeignServerStmt =>
        ⟨st, [Event.invoke "CreateForeignServer"], tag, none⟩
      | .AlterForeignServerStmt =>
        ⟨st, [Event.invoke "AlterForeignServer"], tag, none⟩
      | .DropForeignServerStmt =>
        ⟨st, [Event.invoke "RemoveForeignServer"], tag, none⟩
      | .CreateUserMappingStmt =>
        ⟨st, [Event.invoke "CreateUserMapping"], tag, none⟩
      | .AlterUserMappingStmt =>
        ⟨st, [Event.invoke "AlterUserMapping"], tag, none⟩
      | .DropUserMappingStmt =>
        ⟨st, [Event.invoke "RemoveUserMapping"], tag, none⟩
      | .DropStmt removeType =>
        let leaf : Option String :=
          match removeType with
          | .OBJECT_TABLE | .OBJECT_SEQUENCE | .OBJECT_VIEW
          | .OBJECT_INDEX | .OBJECT_FOREIGN_TABLE => some "RemoveRelations"
          | .OBJECT_TYPE | .OBJECT_DOMAIN => some "RemoveTypes"
          | .OBJECT_COLLATION => some "DropCollationsCommand"
          | .OBJECT_CONVERSION => some "DropConversionsCommand"
          | .OBJECT_SCHEMA => some "RemoveSchemas"
          | .OBJECT_TSPARSER => some "RemoveTSParsers"
          | .OBJECT_TSDICTIONARY => some "RemoveTSDictionaries"
          | .OBJECT_TSTEMPLATE => some "RemoveTSTemplates"
          | .OBJECT_TSCONFIGURATION => some "RemoveTSConfigurations"
          | .OBJECT_EXTENSION => some "RemoveExtensions"
          | _ => none
        match leaf with
        | none =>
          ⟨st, [], tag, some (.internalElog "unrecognized drop object type")⟩
        | some l =>
          let remote :=
            if cfg.pgxc && cfg.isPgxcCoordinator && !cfg.connFromCoord then
              if removeType = .OBJECT_SEQUENCE ||
                 removeType = .OBJECT_VIEW then
                ExecUtilityStmtOnNodes cfg queryString false .EXEC_ON_COORDS
              else
                ExecUtilityStmtOnNodes cfg queryString false
                  .EXEC_ON_ALL_NODES
            else []
          ⟨st, [Event.invoke l] ++ remote, tag, none⟩
      | .TruncateStmt =>
        ⟨st, [Event.invoke "ExecuteTruncate"] ++
          pgxcCoordRemote cfg queryString false .EXEC_ON_ALL_NODES, tag,
          none⟩
      | .CommentStmt objtype =>
        if cfg.pgxc && cfg.isPgxcCoordinator && !cfg.connFromCoord then
          if objtype = .OBJECT_SEQUENCE || objtype = .OBJECT_VIEW then
            ⟨st, [Event.invoke "CommentObject"] ++
              ExecUtilityStmtOnNodes cfg queryString false .EXEC_ON_COORDS,
              tag, none⟩
          else if objtype = .OBJECT_RULE then
            ⟨st, [Event.invoke "CommentObject"], tag,
              some (.featureNotSupported
                "Postgres-XC does not support COMMENT on RULE yet")⟩
          else
            ⟨st, [Event.invoke "CommentObject"] ++
              ExecUtilityStmtOnNodes cfg queryString false
                .EXEC_ON_ALL_NODES, tag, none⟩
        else ⟨st, [Event.invoke "CommentObject"], tag, none⟩
      | .SecLabelStmt =>
        ⟨st, [Event.invoke "ExecSecLabelStmt"], tag, none⟩
      | .CopyStmt =>
        ⟨st, [Event.invoke "DoCopy"],
          tag.map (fun _ => "COPY " ++ toString ext.doCopyProcessed), none⟩
      | .PrepareStmt =>
        if cfg.pgxc then
          ⟨st, [], tag, some (.featureNotSupported
            "Postgres-XC does not support PREPARE yet")⟩
        else
          match CheckRestrictedOperation st "PREPARE" with
          | some e => ⟨st, [], tag, some e⟩
          | none => ⟨st, [Event.invoke "PrepareQuery"], tag, none⟩
      | .ExecuteStmt _ _ =>
        if cfg.pgxc then
          ⟨st, [], tag, some (.featureNotSupported
            "Postgres-XC does not support EXECUTE yet")⟩
        else
          ⟨st, [Event.invoke "ExecuteQuery"],
            tag.map (fun _ => ext.executeCompletion), none⟩
      | .DeallocateStmt _ =>
        match CheckRestrictedOperation st "DEALLOCATE" with
        | some e => ⟨st, [], tag, some e⟩
        | none => ⟨st, [Event.invoke "DeallocateQuery"], tag, none⟩
      | .RenameStmt renameType relRelkind =>
        let remote :=
          if cfg.pgxc && cfg.isPgxcCoordinator && !cfg.connFromCoord then
            let remoteExecType :=
              if renameType = .OBJECT_SEQUENCE ||
                 renameType = .OBJECT_VIEW then
                RemoteQueryExecType.EXEC_ON_COORDS
              else if renameType = .OBJECT_TABLE &&
                  relRelkind = .RELKIND_SEQUENCE then
                RemoteQueryExecType.EXEC_ON_COORDS
              else RemoteQueryExecType.EXEC_ON_ALL_NODES
            ExecUtilityStmtOnNodes cfg queryString false remoteExecType
          else []
        ⟨st, remote ++ [Event.invoke "ExecRenameStmt"], tag, none⟩
      | .AlterObjectSchemaStmt objectType relRelkind =>
        let remote :=
          if cfg.pgxc && cfg.isPgxcCoordinator && !cfg.connFromCoord then
            let remoteExecType :=
              if objectType = .OBJECT_SEQUENCE ||
                 objectType = .OBJECT_VIEW then
                RemoteQueryExecType.EXEC_ON_COORDS
              else if objectType = .OBJECT_TABLE &&
                  relRelkind = .RELKIND_SEQUENCE then
                RemoteQueryExecType.EXEC_ON_COORDS
              else RemoteQueryExecType.EXEC_ON_ALL_NODES
            ExecUtilityStmtOnNodes cfg queryString false remoteExecType
          else []
        ⟨st, remote ++ [Event.invoke "ExecAlterObjectSchemaStmt"], tag,
          none⟩
      | .AlterOwnerStmt _ =>
        ⟨st, [Event.invoke "ExecAlterOwnerStmt"] ++
          pgxcCoordRemote cfg queryString false .EXEC_ON_ALL_NODES, tag,
          none⟩
      | .AlterTableStmt relkind relRelkind =>
        let stmts := ext.transformAlterTableStmtResult
        let stmts :=
          if cfg.pgxc && isTopLevel then
            let remoteExecType :=
              if relkind = .OBJECT_VIEW || relkind = .OBJECT_SEQUENCE then
                RemoteQueryExecType.EXEC_ON_COORDS
              else if relkind = .OBJECT_TABLE &&
                  relRelkind = .RELKIND_SEQUENCE then
                RemoteQueryExecType.EXEC_ON_COORDS
              else RemoteQueryExecType.EXEC_ON_ALL_NODES
            AddRemoteQueryNode stmts queryString remoteExecType
          else stmts
        let r := alterTableSubList fuel cfg ext st stmts queryString
        ⟨r.fst, r.snd.fst, tag, r.snd.snd⟩
      | .AlterDomainStmt subtype =>
        let leaf : Option String :=
          if subtype = 'T' then some "AlterDomainDefault"
          else if subtype = 'N' then some "AlterDomainNotNull"
          else if subtype = 'O' then some "AlterDomainNotNull"
          else if subtype = 'C' then some "AlterDomainAddConstraint"
          else if subtype = 'X' then some "AlterDomainDropConstraint"
          else none
        match leaf with
        | none =>
          ⟨st, [], tag, some (.internalElog "unrecognized alter domain type")⟩
        | some l =>
          ⟨st, [Event.invoke l] ++
            pgxcCoordRemote cfg queryString false .EXEC_ON_ALL_NODES, tag,
            none⟩
      | .GrantStmt _ objtype targetIsObject objectRelkinds =>
        if cfg.pgxc && cfg.isPgxcCoordinator && !cfg.connFromCoord then
          let chosen : Option RemoteQueryExecType :=
            if objtype = .ACL_OBJECT_SEQUENCE then some .EXEC_ON_COORDS
            else if objtype = .ACL_OBJECT_RELATION && targetIsObject then
              let perObject := objectRelkinds.map (fun rk =>
                if rk = RelKind.RELKIND_SEQUENCE ||
                   rk = RelKind.RELKIND_VIEW then
                  RemoteQueryExecType.EXEC_ON_COORDS
                else RemoteQueryExecType.EXEC_ON_ALL_NODES)
              match perObject with
              | [] => some .EXEC_ON_ALL_NODES
              | t :: ts => if ts.all (fun u => u = t) then some t else none
            else some .EXEC_ON_ALL_NODES
          match chosen with
          | none =>
            ⟨st, [], tag, some (.featureNotSupported
              "PGXC does not support GRANT on multiple object types")⟩
          | some et =>
            ⟨st, ExecUtilityStmtOnNodes cfg queryString false et ++
              [Event.invoke "ExecuteGrantStmt"], tag, none⟩
        else ⟨st, [Event.invoke "ExecuteGrantStmt"], tag, none⟩
      | .GrantRoleStmt _ =>
        ⟨st, [Event.invoke "GrantRole"] ++
          pgxcCoordRemote cfg queryString false .EXEC_ON_ALL_NODES, tag,
          none⟩
      | .AlterDefaultPrivilegesStmt =>
        ⟨st, [Event.invoke "ExecAlterDefaultPrivilegesStmt"] ++
          pgxcCoordRemote cfg queryString false .EXEC_ON_ALL_NODES, tag,
          none⟩
      | .DefineStmt kind =>
        let leaf : Option String :=
          match kind with
          | .OBJECT_AGGREGATE => some "DefineAggregate"
          | .OBJECT_OPERATOR => some "DefineOperator"
          | .OBJECT_TYPE => some "DefineType"
          | .OBJECT_TSPARSER => some "DefineTSParser"
          | .OBJECT_TSDICTIONARY => some "DefineTSDictionary"
          | .OBJECT_TSTEMPLATE => some "DefineTSTemplate"
          | .OBJECT_TSCONFIGURATION => some "DefineTSConfiguration"
          | .OBJECT_COLLATION => some "DefineCollation"
          | _ => none
        match leaf with
        | none =>
          ⟨st, [], tag, some (.internalElog "unrecognized define stmt type")⟩
        | some l =>
          ⟨st, [Event.invoke l] ++
            pgxcCoordRemote cfg queryString false .EXEC_ON_ALL_NODES, tag,
            none⟩
      | .CompositeTypeStmt =>
        ⟨st, [Event.invoke "DefineCompositeType"] ++
          pgxcCoordRemote cfg queryString false .EXEC_ON_ALL_NODES, tag,
          none⟩
      | .CreateEnumStmt =>
        ⟨st, [Event.invoke "DefineEnum"] ++
          pgxcCoordRemote cfg queryString false .EXEC_ON_ALL_NODES, tag,
          none⟩
      | .AlterEnumStmt =>
        match PreventTransactionChain st isTopLevel "ALTER TYPE ... ADD" with
        | some e => ⟨st, [], tag, some e⟩
        | none => ⟨st, [Event.invoke "AlterEnum"], tag, none⟩
      | .ViewStmt =>
        ⟨st, [Event.invoke "DefineView"] ++
          pgxcCoordRemote cfg queryString false .EXEC_ON_COORDS, tag, none⟩
      | .CreateFunctionStmt =>
        ⟨st, [Event.invoke "CreateFunction"] ++
          pgxcCoordRemote cfg queryString false .EXEC_ON_ALL_NODES, tag,
          none⟩
      | .AlterFunctionStmt =>
        ⟨st, [Event.invoke "AlterFunction"] ++
          pgxcCoordRemote cfg queryString false .EXEC_ON_ALL_NODES, tag,
          none⟩
      | .IndexStmt concurrent isconstraint =>
        if cfg.pgxc && concurrent then
          ⟨st, [], tag, some (.featureNotSupported
            "PGXC does not support concurrent INDEX yet")⟩
        else
          match (if concurrent then
              PreventTransactionChain st isTopLevel
                "CREATE INDEX CONCURRENTLY"
            else none) with
          | some e => ⟨st, [], tag, some e⟩
          | none =>
            let remote :=
              if cfg.pgxc && cfg.isPgxcCoordinator && !isconstraint &&
                 !cfg.connFromCoord then
                ExecUtilityStmtOnNodes cfg queryString concurrent
                  .EXEC_ON_ALL_NODES
              else []
            ⟨st, [Event.invoke "CheckRelationOwnership",
              Event.invoke "DefineIndex"] ++ remote, tag, none⟩
      | .RuleStmt relRelkind =>
        let remote :=
          if cfg.pgxc && cfg.isPgxcCoordinator && !cfg.connFromCoord then
            let remoteExecType :=
              if relRelkind = .RELKIND_VIEW then
                RemoteQueryExecType.EXEC_ON_COORDS
              else RemoteQueryExecType.EXEC_ON_ALL_NODES
            ExecUtilityStmtOnNodes cfg queryString false remoteExecType
          else []
        ⟨st, [Event.invoke "DefineRule"] ++ remote, tag, none⟩
      | .CreateSeqStmt =>
        ⟨st, [Event.invoke "DefineSequence"] ++
          pgxcCoordRemote cfg queryString false .EXEC_ON_COORDS, tag, none⟩
      | .AlterSeqStmt =>
        ⟨st, [Event.invoke "AlterSequence"] ++
          pgxcCoordRemote cfg queryString false .EXEC_ON_COORDS, tag, none⟩
      | .RemoveFuncStmt kind =>
        let leaf : Option String :=
          match kind with
          | .OBJECT_FUNCTION => some "RemoveFunction"
          | .OBJECT_AGGREGATE => some "RemoveAggregate"
          | .OBJECT_OPERATOR => some "RemoveOperator"
          | _ => none
        match leaf with
        | none =>
          ⟨st, [], tag, some (.internalElog "unrecognized object type")⟩
        | some l =>
          ⟨st, [Event.invoke l] ++
            pgxcCoordRemote cfg queryString false .EXEC_ON_ALL_NODES, tag,
            none⟩
      | .DoStmt => ⟨st, [Event.invoke "ExecuteDoStmt"], tag, none⟩
      | .CreatedbStmt =>
        match PreventTransactionChain st isTopLevel "CREATE DATABASE" with
        | some e => ⟨st, [], tag, some e⟩
        | none =>
          ⟨st, [Event.invoke "createdb"] ++
            pgxcCoordRemote cfg queryString true .EXEC_ON_ALL_NODES, tag,
            none⟩
      | .AlterDatabaseStmt =>
        ⟨st, [Event.invoke "AlterDatabase"] ++
          pgxcCoordRemote cfg queryString false .EXEC_ON_ALL_NODES, tag,
          none⟩
      | .AlterDatabaseSetStmt =>
        ⟨st, [Event.invoke "AlterDatabaseSet"] ++
          pgxcCoordRemote cfg queryString false .EXEC_ON_ALL_NODES, tag,
          none⟩
      | .DropdbStmt dbname =>
        let pre :=
          if cfg.pgxc && cfg.isPgxcCoordinator && !cfg.connFromCoord then
            [Event.invoke "DropDBCleanConnection"] ++
              ExecUtilityStmtOnNodes cfg
                ("CLEAN CONNECTION TO ALL FOR DATABASE " ++ dbname ++ ";")
                true .EXEC_ON_COORDS
          else []
        match PreventTransactionChain st isTopLevel "DROP DATABASE" with
        | some e => ⟨st, pre, tag, some e⟩
        | none =>
          ⟨st, pre ++ [Event.invoke "dropdb"] ++
            pgxcCoordRemote cfg queryString true .EXEC_ON_ALL_NODES, tag,
            none⟩
      | .NotifyStmt =>
        match PreventCommandDuringRecovery st "NOTIFY" with
        | some e => ⟨st, [], tag, some e⟩
        | none => ⟨st, [Event.invoke "Async_Notify"], tag, none⟩
      | .ListenStmt =>
        match PreventCommandDuringRecovery st "LISTEN" with
        | some e => ⟨st, [], tag, some e⟩
        | none =>
          match CheckRestrictedOperation st "LISTEN" with
          | some e => ⟨st, [], tag, some e⟩
          | none => ⟨st, [Event.invoke "Async_Listen"], tag, none⟩
      | .UnlistenStmt conditionname =>
        match PreventCommandDuringRecovery st "UNLISTEN" with
        | some e => ⟨st, [], tag, some e⟩
        | none =>
          match CheckRestrictedOperation st "UNLISTEN" with
          | some e => ⟨st, [], tag, some e⟩
          | none =>
            match conditionname with
            | some _ => ⟨st, [Event.invoke "Async_Unlisten"], tag, none⟩
            | none => ⟨st, [Event.invoke "Async_UnlistenAll"], tag, none⟩
      | .LoadStmt =>
        ⟨st, [Event.invoke "closeAllVfds", Event.invoke "load_file"] ++
          pgxcCoordRemote cfg queryString false .EXEC_ON_DATANODES, tag,
          none⟩
      | .ClusterStmt =>
        match PreventCommandDuringRecovery st "CLUSTER" with
        | some e => ⟨st, [], tag, some e⟩
        | none =>
          ⟨st, [Event.invoke "cluster"] ++
            pgxcCoordRemote cfg queryString true .EXEC_ON_DATANODES, tag,
            none⟩
      | .VacuumStmt _ =>
        match PreventCommandDuringRecovery st "VACUUM" with
        | some e => ⟨st, [], tag, some e⟩
        | none =>
          ⟨st, pgxcCoordRemote cfg queryString true .EXEC_ON_DATANODES ++
            [Event.invoke "vacuum"], tag, none⟩
      | .ExplainStmt => ⟨st, [Event.invoke "ExplainQuery"], tag, none⟩
      | .VariableSetStmt _ is_local =>
        if cfg.pgxc && cfg.isPgxcCoordinator && !cfg.connFromCoord then
          if !is_local || !(IsTransactionBlock st) then
            if ext.poolCommandOk then
              ⟨st, [Event.invoke "ExecSetVariableStmt",
                Event.invoke "PoolManagerSetCommand"], tag, none⟩
            else
              ⟨st, [Event.invoke "ExecSetVariableStmt",
                Event.invoke "PoolManagerSetCommand"], tag,
                some (.internalElog "Postgres-XC: ERROR SET query")⟩
          else ⟨st, [Event.invoke "ExecSetVariableStmt"], tag, none⟩
        else ⟨st, [Event.invoke "ExecSetVariableStmt"], tag, none⟩
      | .VariableShowStmt _ =>
        ⟨st, [Event.invoke "GetPGVariable"], tag, none⟩
      | .DiscardStmt _ =>
        match CheckRestrictedOperation st "DISCARD" with
        | some e => ⟨st, [], tag, some e⟩
        | none =>
          if cfg.pgxc && cfg.isPgxcCoordinator && !cfg.connFromCoord then
            if !(IsTransactionBlock st) then
              if ext.poolCommandOk then
                ⟨st, [Event.invoke "DiscardCommand",
                  Event.invoke "PoolManagerSetCommand"], tag, none⟩
              else
                ⟨st, [Event.invoke "DiscardCommand",
                  Event.invoke "PoolManagerSetCommand"], tag,
                  some (.internalElog "Postgres-XC: ERROR DISCARD query")⟩
            else ⟨st, [Event.invoke "DiscardCommand"], tag, none⟩
          else ⟨st, [Event.invoke "DiscardCommand"], tag, none⟩
      | .CreateTrigStmt =>
        if cfg.pgxc then
          ⟨st, [Event.invoke "CreateTrigger"], tag,
            some (.featureNotSupported
              "Postgres-XC does not support TRIGGER yet")⟩
        else ⟨st, [Event.invoke "CreateTrigger"], tag, none⟩
      | .DropPropertyStmt removeType relRelkind =>
        match removeType with
        | .OBJECT_RULE =>
          let remote :=
            if cfg.pgxc && cfg.isPgxcCoordinator && !cfg.connFromCoord then
              let remoteExecType :=
                if relRelkind = .RELKIND_VIEW then
                  RemoteQueryExecType.EXEC_ON_COORDS
                else RemoteQueryExecType.EXEC_ON_ALL_NODES
              ExecUtilityStmtOnNodes cfg queryString false remoteExecType
            else []
          ⟨st, [Event.invoke "RemoveRewriteRule"] ++ remote, tag, none⟩
        | .OBJECT_TRIGGER =>
          ⟨st, [Event.invoke "DropTrigger"] ++
            pgxcCoordRemote cfg queryString false .EXEC_ON_ALL_NODES, tag,
            none⟩
        | _ => ⟨st, [], tag, some (.internalElog "unrecognized object type")⟩
      | .CreatePLangStmt =>
        ⟨st, [Event.invoke "CreateProceduralLanguage"] ++
          pgxcCoordRemote cfg queryString false .EXEC_ON_ALL_NODES, tag,
          none⟩
      | .DropPLangStmt =>
        ⟨st, [Event.invoke "DropProceduralLanguage"] ++
          pgxcCoordRemote cfg queryString false .EXEC_ON_ALL_NODES, tag,
          none⟩
      | .CreateDomainStmt =>
        ⟨st, [Event.invoke "DefineDomain"] ++
          pgxcCoordRemote cfg queryString false .EXEC_ON_ALL_NODES, tag,
          none⟩
      | .CreateRoleStmt =>
        ⟨st, [Event.invoke "CreateRole"] ++
          pgxcCoordRemote cfg queryString false .EXEC_ON_ALL_NODES, tag,
          none⟩
      | .AlterRoleStmt =>
        ⟨st, [Event.invoke "AlterRole"] ++
          pgxcCoordRemote cfg queryString false .EXEC_ON_ALL_NODES, tag,
          none⟩
      | .AlterRoleSetStmt =>
        ⟨st, [Event.invoke "AlterRoleSet"] ++
          pgxcCoordRemote cfg queryString false .EXEC_ON_ALL_NODES, tag,
          none⟩
      | .DropRoleStmt =>
        ⟨st, [Event.invoke "DropRole"] ++
          pgxcCoordRemote cfg queryString false .EXEC_ON_ALL_NODES, tag,
          none⟩
      | .DropOwnedStmt =>
        ⟨st, [Event.invoke "DropOwnedObjects"] ++
          pgxcCoordRemote cfg queryString false .EXEC_ON_ALL_NODES, tag,
          none⟩
      | .ReassignOwnedStmt =>
        ⟨st, [Event.invoke "ReassignOwnedObjects"] ++
          pgxcCoordRemote cfg queryString false .EXEC_ON_ALL_NODES, tag,
          none⟩
      | .LockStmt =>
        match RequireTransactionChain st isTopLevel "LOCK TABLE" with
        | some e => ⟨st, [], tag, some e⟩
        | none =>
          ⟨st, [Event.invoke "LockTableCommand"] ++
            pgxcCoordRemote cfg queryString false .EXEC_ON_ALL_NODES, tag,
            none⟩
      | .ConstraintsSetStmt =>
        ⟨st, [Event.invoke "AfterTriggerSetState"], tag, none⟩
      | .CheckPointStmt =>
        if !st.superuser then
          ⟨st, [], tag,
            some (.insufficientPrivilege "must be superuser to do CHECKPOINT")⟩
        else
          ⟨st, [Event.requestCheckpoint true true (!st.recoveryInProgress)]
            ++ pgxcCoordRemote cfg queryString true .EXEC_ON_DATANODES,
            tag, none⟩
      | .BarrierStmt _ =>
        if cfg.pgxc then
          ⟨st, [Event.invoke "RequestBarrier"],
            tag.map (fun _ => ext.barrierCompletion), none⟩
        else ⟨st, [], tag, some (.internalElog "unrecognized node type")⟩
      | .ReindexStmt kind =>
        match PreventCommandDuringRecovery st "REINDEX" with
        | some e => ⟨st, [], tag, some e⟩
        | none =>
          match kind with
          | .OBJECT_INDEX =>
            ⟨st, [Event.invoke "ReindexIndex"] ++
              pgxcCoordRemote cfg queryString false .EXEC_ON_ALL_NODES,
              tag, none⟩
          | .OBJECT_TABLE =>
            ⟨st, [Event.invoke "ReindexTable"] ++
              pgxcCoordRemote cfg queryString false .EXEC_ON_ALL_NODES,
              tag, none⟩
          | .OBJECT_DATABASE =>
            match PreventTransactionChain st isTopLevel "REINDEX DATABASE" with
            | some e => ⟨st, [], tag, some e⟩
            | none =>
              ⟨st, [Event.invoke "ReindexDatabase"] ++
                pgxcCoordRemote cfg queryString true .EXEC_ON_ALL_NODES,
                tag, none⟩
          | _ =>
            ⟨st, [], tag, some (.internalElog "unrecognized object type")⟩
      | .CreateConversionStmt =>
        ⟨st, [Event.invoke "CreateConversionCommand"] ++
          pgxcCoordRemote cfg queryString false .EXEC_ON_ALL_NODES, tag,
          none⟩
      | .CreateCastStmt =>
        ⟨st, [Event.invoke "CreateCast"] ++
          pgxcCoordRemote cfg queryString false .EXEC_ON_ALL_NODES, tag,
          none⟩
      | .DropCastStmt =>
        ⟨st, [Event.invoke "DropCast"] ++
          pgxcCoordRemote cfg queryString false .EXEC_ON_ALL_NODES, tag,
          none⟩
      | .CreateOpClassStmt =>
        ⟨st, [Event.invoke "DefineOpClass"] ++
          pgxcCoordRemote cfg queryString false .EXEC_ON_ALL_NODES, tag,
          none⟩
      | .CreateOpFamilyStmt =>
        ⟨st, [Event.invoke "DefineOpFamily"] ++
          pgxcCoordRemote cfg queryString false .EXEC_ON_ALL_NODES, tag,
          none⟩
      | .AlterOpFamilyStmt =>
        ⟨st, [Event.invoke "AlterOpFamily"] ++
          pgxcCoordRemote cfg queryString false .EXEC_ON_ALL_NODES, tag,
          none⟩
      | .RemoveOpClassStmt =>
        ⟨st, [Event.invoke "RemoveOpClass"] ++
          pgxcCoordRemote cfg queryString false .EXEC_ON_ALL_NODES, tag,
          none⟩
      | .RemoveOpFamilyStmt =>
        ⟨st, [Event.invoke "RemoveOpFamily"] ++
          pgxcCoordRemote cfg queryString false .EXEC_ON_ALL_NODES, tag,
          none⟩
      | .AlterTSDictionaryStmt =>
        ⟨st, [Event.invoke "AlterTSDictionary"] ++
          pgxcCoordRemote cfg queryString false .EXEC_ON_ALL_NODES, tag,
          none⟩
      | .AlterTSConfigurationStmt =>
        ⟨st, [Event.invoke "AlterTSConfiguration"] ++
          pgxcCoordRemote cfg queryString false .EXEC_ON_ALL_NODES, tag,
          none⟩
      | .RemoteQuery sql fa et =>
        if cfg.pgxc then
          if !cfg.connFromCoord then
            ⟨st, [Event.remoteUtility sql fa et], tag, none⟩
          else ⟨st, [], tag, none⟩
        else ⟨st, [], tag, some (.internalElog "unrecognized node type")⟩
      | .CleanConnStmt =>
        if cfg.pgxc then
          ⟨st, [Event.invoke "CleanConnection"] ++
            (if cfg.isPgxcCoordinator then
              ExecUtilityStmtOnNodes cfg queryString true .EXEC_ON_COORDS
            else []), tag, none⟩
        else ⟨st, [], tag, some (.internalElog "unrecognized node type")⟩
      | .InsertStmt | .DeleteStmt | .UpdateStmt | .SelectStmt =>
        ⟨st, [], tag, some (.internalElog "unrecognized node type")⟩

/-- The `foreach` over the sub-statement list of the
`T_CreateStmt`/`T_CreateForeignTableStmt` branch: handle
`CreateStmt`/`CreateForeignTableStmt` elements inline, recurse into
`ProcessUtility` (with `isTopLevel = false`, `None_Receiver`, NULL
completion tag) for anything else, with a `CommandCounterIncrement`
between consecutive elements. -/
def createStmtSubList (fuel : Nat) (cfg : Config) (ext : Externals)
    (st : SessionState) (stmts : List Node) (queryString : String) :
    SessionState × List Event × Option PGError :=
  match fuel with
  | 0 => (st, [], some .outOfFuel)
  | Nat.succ fuel =>
    match stmts with
    | [] => (st, [], none)
    | stmt :: rest =>
      let step : SessionState × List Event × Option PGError :=
        match stmt with
        | .CreateStmt =>
          (st, [Event.invoke "DefineRelation", Event.cci,
            Event.invoke "AlterTableCreateToastTable"], none)
        | .CreateForeignTableStmt =>
          (st, [Event.invoke "DefineRelation",
            Event.invoke "CreateForeignTable"], none)
        | other =>
          let r := standard_ProcessUtility fuel cfg ext st other
            queryString false none
          (r.st, r.events, r.err)
      match step.snd.snd with
      | some e => (step.fst, step.snd.fst, some e)
      | none =>
        if rest.isEmpty then (step.fst, step.snd.fst, none)
        else
          let r := createStmtSubList fuel cfg ext step.fst rest queryString
          (r.fst, step.snd.fst ++ [Event.cci] ++ r.snd.fst, r.snd.snd)

/-- The `foreach` over the sub-statement list of the `T_AlterTableStmt`
branch. -/
def alterTableSubList (fuel : Nat) (cfg : Config) (ext : Externals)
    (st : SessionState) (stmts : List Node) (queryString : String) :
    SessionState × List Event × Option PGError :=
  match fuel with
  | 0 => (st, [], some .outOfFuel)
  | Nat.succ fuel =>
    match stmts with
    | [] => (st, [], none)
    | stmt :: rest =>
      let step : SessionState × List Event × Option PGError :=
        match stmt with
        | .AlterTableStmt _ _ => (st, [Event.invoke "AlterTable"], none)
        | other =>
          let r := standard_ProcessUtility fuel cfg ext st other
            queryString false none
          (r.st, r.events, r.err)
      match step.snd.snd with
      | some e => (step.fst, step.snd.fst, some e)
      | none =>
        if rest.isEmpty then (step.fst, step.snd.fst, none)
        else
          let r := alterTableSubList fuel cfg ext step.fst rest queryString
          (r.fst, step.snd.fst ++ [Event.cci] ++ r.snd.fst, r.snd.snd)

end

/-- `ProcessUtility` with no plugin hook installed: calls
`standard_ProcessUtility`. -/
def ProcessUtility (fuel : Nat) (cfg : Config) (ext : Externals)
    (st : SessionState) (parsetree : Node) (queryString : String)
    (isTopLevel : Bool) (completionTag : Option String) : UResult :=
  standard_ProcessUtility fuel cfg ext st parsetree queryString isTopLevel
    completionTag

/-- `GetPortalByName` (portalmem.c, outside the excerpt): look the
portal up in the session's portal table; a portal is reduced to the one
field `utility.c` reads, its optional result tuple descriptor. -/
def GetPortalByName (st : SessionState) (name : String) :
    Option (Option TupleDesc) :=
  st.portals.lookup name

/-- `FetchPreparedStatement(name, false)` (prepare.c, outside the
excerpt): look the prepared statement up; reduced to its optional
`plansource->resultDesc`. -/
def FetchPreparedStatement (st : SessionState) (name : String) :
    Option (Option TupleDesc) :=
  st.preparedStmts.lookup name

/-- Modelled from the spec: `CreateTupleDescCopy` (tupdesc.c, outside
the excerpt) — copy a tuple descriptor. -/
def CreateTupleDescCopy (tupdesc : Option TupleDesc) : Option TupleDesc :=
  tupdesc.map (fun d => d)

/-- Modelled from the spec: `FetchPreparedStatementResultDesc`
(prepare.c, outside the excerpt) — a copy of the prepared statement's
result descriptor when it produces one ("EXECUTE of a SELECT-producing
prepared statement"), else NULL. -/
def FetchPreparedStatementResultDesc (resultDesc : Option TupleDesc) :
    Option TupleDesc :=
  resultDesc.map (fun d => d)

/-- Modelled from the spec: `ExplainResultDesc` (explain.c, outside the
excerpt) — EXPLAIN always produces a one-column text descriptor. -/
def ExplainResultDesc : TupleDesc := ⟨"QUERY PLAN"⟩

/-- Modelled from the spec: `GetPGVariableResultDesc` (guc.c, outside
the excerpt) — SHOW produces a descriptor named after the variable. -/
def GetPGVariableResultDesc (name : String) : TupleDesc := ⟨name⟩

/-- `UtilityReturnsTuples` from `utility.c`: will this utility
statement send output to the destination? -/
def UtilityReturnsTuples (st : SessionState) (parsetree : Node) : Bool :=
  match parsetree with
  | .FetchStmt portalname ismove =>
    if ismove then false
    else
      match GetPortalByName st portalname with
      | none => false
      | some tupDesc => tupDesc.isSome
  | .ExecuteStmt name into =>
    if into then false
    else
      match FetchPreparedStatement st name with
      | none => false
      | some resultDesc => resultDesc.isSome
  | .ExplainStmt => true
  | .VariableShowStmt _ => true
  | _ => false

/-- `UtilityTupleDescriptor` from `utility.c`: the actual output tuple
descriptor for a utility statement. -/
def UtilityTupleDescriptor (st : SessionState) (parsetree : Node) :
    Option TupleDesc :=
  match parsetree with
  | .FetchStmt portalname ismove =>
    if ismove then none
    else
      match GetPortalByName st portalname with
      | none => none
      | some tupDesc => CreateTupleDescCopy tupDesc
  | .ExecuteStmt name into =>
    if into then none
    else
      match FetchPreparedStatement st name with
      | none => none
      | some resultDesc => FetchPreparedStatementResultDesc resultDesc
  | .ExplainStmt => some ExplainResultDesc
  | .VariableShowStmt name => some (GetPGVariableResultDesc name)
  | _ => none

/-- The four statement kinds for which the dispatcher passes `dest` on:
cursor FETCH, EXECUTE, EXPLAIN, SHOW. -/
def tupleReturningKind (parsetree : Node) : Bool :=
  match parsetree with
  | .FetchStmt _ _ => true
  | .ExecuteStmt _ _ => true
  | .ExplainStmt => true
  | .VariableShowStmt _ => true
  | _ => false

/-- The remote-propagation calls of a trace, in order: the statement
text, the force-autocommit flag and the target node set of each
`ExecRemoteUtility` hand-off. -/
def remoteCalls (events : List Event) :
    List (String × Bool × RemoteQueryExecType) :=
  events.filterMap (fun e =>
    match e with
    | .remoteUtility sql fa et => some (sql, fa, et)
    | _ => none)

/-- A quiescent session: read-write, primary, unrestricted superuser
session outside any transaction block, with no portals or prepared
statements. -/
def st0 : SessionState :=
  { xactReadOnly := false
    recoveryInProgress := false
    inSecurityRestrictedOperation := false
    superuser := true
    blockState := .idle
    savepoints := []
    portals := []
    preparedStmts := [] }

/-- A PGXC build running as an originating Coordinator (the statement
came straight from a client). -/
def cfgCoord : Config :=
  { pgxc := true, isPgxcCoordinator := true, connFromCoord := false }

/-- A PGXC build receiving the statement as a relay from another
Coordinator. -/
def cfgRelay : Config :=
  { pgxc := true, isPgxcCoordinator := false, connFromCoord := true }

/-- A vanilla (non-PGXC) build. -/
def cfgVanilla : Config :=
  { pgxc := false, isPgxcCoordinator := false, connFromCoord := false }

/-- Default external-call results for concrete scenarios. -/
def ext0 : Externals :=
  { pgxcNodePrepareResult := false
    pgxcNodeRollbackResult := false
    transformCreateStmtResult := [.CreateStmt]
    transformAlterTableStmtResult := [.AlterTableStmt .OBJECT_TABLE .RELKIND_RELATION]
    doCopyProcessed := 1024
    poolCommandOk := true
    fetchCompletion := "FETCH 1"
    executeCompletion := "SELECT 1"
    barrierCompletion := "BARRIER" }

/-- `st0` inside an open (healthy) transaction block. -/
def stBlock : SessionState := { st0 with blockState := .inBlock }

/-- `st0` inside a transaction block already marked aborted. -/
def stAborted : SessionState := { st0 with blockState := .abortedBlock }

/-- `st0` with the session in read-only mode. -/
def stReadOnly : SessionState := { st0 with xactReadOnly := true }

/-- `st0` during recovery (hot standby). -/
def stRecovery : SessionState := { st0 with recoveryInProgress := true }

/-! ## Guard lemmas -/

/-- On the deny-list, `check_xact_readonly` under read-only mode raises
the read-only violation naming the command's tag. -/
theorem check_xact_readonly_fires (node : Node)
    (h : xactReadOnlyDenied node = true) :
    check_xact_readonly true node =
      some (.readOnlySqlTransaction (CreateCommandTag node)) := by
  simp [check_xact_readonly, PreventCommandIfReadOnly, h]

/-- Off the deny-list, `check_xact_readonly` never raises. -/
theorem check_xact_readonly_passes (node : Node) (ro : Bool)
    (h : xactReadOnlyDenied node = false) :
    check_xact_readonly ro node = none := by
  cases ro <;> simp [check_xact_readonly, h]

/-- Transaction-control statements are not on the read-only
deny-list. -/
theorem check_xact_readonly_transaction (ro : Bool)
    (kind : TransactionStmtKind) (gid : String)
    (options : List (String × String)) :
    check_xact_readonly ro (.TransactionStmt kind gid options) = none := by
  cases ro <;> rfl

/-! ## Claims -/

/-- C1: for PREPARE TRANSACTION in clustered mode (outside recovery), a
node receiving the statement as a relay from a coordinator always
performs the durable local prepare (`PrepareTransactionBlock`); an
originating coordinator first runs the distributed-prepare handshake
(`PGXCNodePrepare`), and when it reports that no durable DDL state was
touched cluster-wide it skips the durable 2PC record and commits
locally (`EndTransactionBlock(false)`), writing "ROLLBACK" into the
completion tag if and only if that local commit fails. -/
theorem claim_C1_prepare (fuel : Nat) (cfg : Config) (ext : Externals)
    (st : SessionState) (gid : String) (opts : List (String × String))
    (qs : String) (top : Bool) (s : String)
    (hrec : st.recoveryInProgress = false) (hpgxc : cfg.pgxc = true) :
    (cfg.connFromCoord = true →
      standard_ProcessUtility (fuel + 1) cfg ext st
          (.TransactionStmt .TRANS_STMT_PREPARE gid opts) qs top (some s) =
        ⟨(PrepareTransactionBlock st gid).fst,
          [Event.prepareTransactionBlock gid],
          if (PrepareTransactionBlock st gid).snd then some ""
          else some "ROLLBACK", none⟩) ∧
    (cfg.isPgxcCoordinator = true → cfg.connFromCoord = false →
      ext.pgxcNodePrepareResult = false →
      standard_ProcessUtility (fuel + 1) cfg ext st
          (.TransactionStmt .TRANS_STMT_PREPARE gid opts) qs top (some s) =
        ⟨(EndTransactionBlock st).fst,
          [Event.pgxcNodePrepare gid, Event.endTransactionBlock false],
          if (EndTransactionBlock st).snd then some "" else some "ROLLBACK",
          none⟩ ∧
      ((standard_ProcessUtility (fuel + 1) cfg ext st
          (.TransactionStmt .TRANS_STMT_PREPARE gid opts) qs top
          (some s)).tag = some "ROLLBACK" ↔
        (EndTransactionBlock st).snd = false)) := by
  have hc := check_xact_readonly_transaction st.xactReadOnly
    .TRANS_STMT_PREPARE gid opts
  constructor
  · intro hfrom
    simp [standard_ProcessUtility, hc, PreventCommandDuringRecovery, hrec,
      hpgxc, hfrom]
  · intro hcoord hfrom hddl
    have heq : standard_ProcessUtility (fuel + 1) cfg ext st
        (.TransactionStmt .TRANS_STMT_PREPARE gid opts) qs top (some s) =
      ⟨(EndTransactionBlock st).fst,
        [Event.pgxcNodePrepare gid, Event.endTransactionBlock false],
        if (EndTransactionBlock st).snd then some "" else some "ROLLBACK",
        none⟩ := by
      simp [standard_ProcessUtility, hc, PreventCommandDuringRecovery, hrec,
        hpgxc, hcoord, hfrom, hddl]
    refine ⟨heq, ?_⟩
    rw [heq]
    cases h : (EndTransactionBlock st).snd <;> simp

/-- Witness for C1: a Datanode-side relay of `PREPARE TRANSACTION 'g1'`
from an open block performs the durable local prepare. -/
theorem claim_C1_prepare_witness :
    (standard_ProcessUtility 2 cfgRelay ext0 stBlock
      (.TransactionStmt .TRANS_STMT_PREPARE "g1" [])
      "PREPARE TRANSACTION 'g1'" true (some "")).events =
      [Event.prepareTransactionBlock "g1"] := by
  have h := (claim_C1_prepare 1 cfgRelay ext0 stBlock "g1" []
    "PREPARE TRANSACTION 'g1'" true "" rfl rfl).1 rfl
  rw [h]

/-- C2: dispatching COMMIT with a non-null completion-tag buffer sets
the tag to "ROLLBACK" (raising no error) exactly when
`EndTransactionBlock` reports failure, and leaves the tag empty on
success. -/
theorem claim_C2_commit_tag (fuel : Nat) (cfg : Config) (ext : Externals)
    (st : SessionState) (gid : String) (opts : List (String × String))
    (qs : String) (top : Bool) (s : String) :
    ((EndTransactionBlock st).snd = false →
      standard_ProcessUtility (fuel + 1) cfg ext st
          (.TransactionStmt .TRANS_STMT_COMMIT gid opts) qs top (some s) =
        ⟨(EndTransactionBlock st).fst, [Event.endTransactionBlock true],
          some "ROLLBACK", none⟩) ∧
    ((EndTransactionBlock st).snd = true →
      standard_ProcessUtility (fuel + 1) cfg ext st
          (.TransactionStmt .TRANS_STMT_COMMIT gid opts) qs top (some s) =
        ⟨(EndTransactionBlock st).fst, [Event.endTransactionBlock true],
          some "", none⟩) := by
  have hc := check_xact_readonly_transaction st.xactReadOnly
    .TRANS_STMT_COMMIT gid opts
  constructor <;> intro h <;>
    simp [standard_ProcessUtility, hc, h]

/-- C3: every deny-listed command dispatched under read-only mode is
rejected with a read-only violation naming the command by its command
tag (and nothing executes); commands off the list pass this guard. -/
theorem claim_C3_readonly_guard (fuel : Nat) (cfg : Config)
    (ext : Externals) (st : SessionState) (node : Node) (qs : String)
    (top : Bool) (tag : Option String) :
    (xactReadOnlyDenied node = true → st.xactReadOnly = true →
      standard_ProcessUtility (fuel + 1) cfg ext st node qs top tag =
        ⟨st, [], tag,
          some (.readOnlySqlTransaction (CreateCommandTag node))⟩) ∧
    (xactReadOnlyDenied node = false →
      check_xact_readonly st.xactReadOnly node = none) := by
  constructor
  · intro hd hro
    have hc : check_xact_readonly st.xactReadOnly node =
        some (.readOnlySqlTransaction (CreateCommandTag node)) := by
      rw [hro]
      exact check_xact_readonly_fires node hd
    simp [standard_ProcessUtility, hc]
  · intro hd
    exact check_xact_readonly_passes node st.xactReadOnly hd

/-- C7: NOTIFY during recovery fails with a cannot-execute-during-
recovery error; CHECKPOINT (as superuser) succeeds and requests a
checkpoint whose FORCE flag is set exactly when not in recovery (so a
recovery-time CHECKPOINT degrades to a restartpoint request). -/
theorem claim_C7_recovery (fuel : Nat) (cfg : Config) (ext : Externals)
    (st : SessionState) (qs : String) (top : Bool) (tag : Option String) :
    (st.recoveryInProgress = true →
      standard_ProcessUtility (fuel + 1) cfg ext st .NotifyStmt qs top tag =
        ⟨st, [], tag.map (fun _ => ""),
          some (.commandDuringRecovery "NOTIFY")⟩) ∧
    (st.superuser = true →
      (standard_ProcessUtility (fuel + 1) cfg ext st .CheckPointStmt qs top
        tag).err = none ∧
      (standard_ProcessUtility (fuel + 1) cfg ext st .CheckPointStmt qs top
        tag).events =
        [Event.requestCheckpoint true true (!st.recoveryInProgress)] ++
          pgxcCoordRemote cfg qs true .EXEC_ON_DATANODES) := by
  have hn : check_xact_readonly st.xactReadOnly .NotifyStmt = none :=
    check_xact_readonly_passes _ _ rfl
  have hcp : check_xact_readonly st.xactReadOnly .CheckPointStmt = none :=
    check_xact_readonly_passes _ _ rfl
  constructor
  · intro h
    simp [standard_ProcessUtility, hn, PreventCommandDuringRecovery, h]
  · intro h
    simp [standard_ProcessUtility, hcp, h]

/-- C8 is false as stated: the read-only guard runs before the
completion tag is cleared, so a rejected command leaves the caller's
buffer with its prior contents ("PREV"), not the empty string. -/
theorem claim_C8_counterexample :
    (standard_ProcessUtility 3 cfgVanilla ext0 stReadOnly .CreateRoleStmt
      "CREATE ROLE r" true (some "PREV")).err =
        some (.readOnlySqlTransaction "CREATE ROLE") ∧
    (standard_ProcessUtility 3 cfgVanilla ext0 stReadOnly .CreateRoleStmt
      "CREATE ROLE r" true (some "PREV")).tag = some "PREV" ∧
    some "PREV" ≠ some "" := by
  refine ⟨rfl, rfl, by decide⟩

/-- C8 amended: the dispatcher runs the read-only guard first and only
then clears the completion tag; when the guard rejects, the buffer is
left untouched (and nothing executes), and when it passes, dispatch
behaves as if the buffer had been cleared (prior contents are
irrelevant). -/
theorem claim_C8_amended (fuel : Nat) (cfg : Config) (ext : Externals)
    (st : SessionState) (parsetree : Node) (qs : String) (top : Bool)
    (tag : Option String) (s : String) :
    (∀ e, check_xact_readonly st.xactReadOnly parsetree = some e →
      standard_ProcessUtility (fuel + 1) cfg ext st parsetree qs top tag =
        ⟨st, [], tag, some e⟩) ∧
    (check_xact_readonly st.xactReadOnly parsetree = none →
      standard_ProcessUtility (fuel + 1) cfg ext st parsetree qs top
          (some s) =
        standard_ProcessUtility (fuel + 1) cfg ext st parsetree qs top
          (some "")) := by
  constructor
  · intro e he
    simp [standard_ProcessUtility, he]
  · intro h
    simp [standard_ProcessUtility, h]

/-- C10: `UtilityReturnsTuples` is true only for FETCH, EXECUTE,
EXPLAIN and SHOW; every other variant yields false and a NULL
`UtilityTupleDescriptor`; and on every statement and session state the
two functions agree (a non-NULL descriptor exactly when tuples are
returned). -/
theorem claim_C10_tuple_agreement (st : SessionState) (parsetree : Node) :
    (UtilityReturnsTuples st parsetree = true →
      tupleReturningKind parsetree = true) ∧
    (tupleReturningKind parsetree = false →
      UtilityReturnsTuples st parsetree = false ∧
      UtilityTupleDescriptor st parsetree = none) ∧
    (UtilityReturnsTuples st parsetree = true ↔
      (UtilityTupleDescriptor st parsetree).isSome = true) := by
  cases parsetree <;>
    simp [UtilityReturnsTuples, UtilityTupleDescriptor, tupleReturningKind]
  case FetchStmt pn ismove =>
    cases ismove <;> simp
    cases h : GetPortalByName st pn <;> simp [CreateTupleDescCopy]
  case ExecuteStmt nm into =>
    cases into <;> simp
    cases h : FetchPreparedStatement st nm <;>
      simp [FetchPreparedStatementResultDesc]

/-- C6: in clustered mode on an originating coordinator (read-write
session), DROP VIEW / DROP SEQUENCE propagate only to the coordinator
tier while DROP TABLE and every other drop object kind propagate to all
nodes; and the remote-execution routine is a no-op whenever the
connection originates from another coordinator, so a relayed statement
is never re-propagated. -/
theorem claim_C6_drop_routing (fuel : Nat) (cfg : Config) (ext : Externals)
    (st : SessionState) (qs : String) (top : Bool) (tag : Option String) :
    (cfg.pgxc = true → cfg.isPgxcCoordinator = true →
      cfg.connFromCoord = false → st.xactReadOnly = false →
      (∀ rt, (rt = ObjectType.OBJECT_SEQUENCE ∨
          rt = ObjectType.OBJECT_VIEW) →
        remoteCalls (standard_ProcessUtility (fuel + 1) cfg ext st
            (.DropStmt rt) qs top tag).events =
          [(qs, false, .EXEC_ON_COORDS)]) ∧
      (∀ rt, rt ∈ [ObjectType.OBJECT_TABLE, .OBJECT_INDEX,
          .OBJECT_FOREIGN_TABLE, .OBJECT_TYPE, .OBJECT_DOMAIN,
          .OBJECT_COLLATION, .OBJECT_CONVERSION, .OBJECT_SCHEMA,
          .OBJECT_TSPARSER, .OBJECT_TSDICTIONARY, .OBJECT_TSTEMPLATE,
          .OBJECT_TSCONFIGURATION, .OBJECT_EXTENSION] →
        remoteCalls (standard_ProcessUtility (fuel + 1) cfg ext st
            (.DropStmt rt) qs top tag).events =
          [(qs, false, .EXEC_ON_ALL_NODES)])) ∧
    (∀ (cfg2 : Config) (qs2 : String) (fa : Bool)
        (et : RemoteQueryExecType), cfg2.connFromCoord = true →
      ExecUtilityStmtOnNodes cfg2 qs2 fa et = []) := by
  constructor
  · intro hpgxc hcoord hfrom hro
    have hc : ∀ rt, check_xact_readonly st.xactReadOnly (.DropStmt rt) =
        none := by
      intro rt; rw [hro]; rfl
    constructor
    · rintro rt (rfl | rfl) <;>
        simp [standard_ProcessUtility, hc, ExecUtilityStmtOnNodes,
          remoteCalls, hpgxc, hcoord, hfrom]
    · intro rt hmem
      simp only [List.mem_cons, List.not_mem_nil, or_false] at hmem
      rcases hmem with rfl | rfl | rfl | rfl | rfl | rfl | rfl | rfl | rfl
        | rfl | rfl | rfl | rfl <;>
        simp [standard_ProcessUtility, hc, ExecUtilityStmtOnNodes,
          remoteCalls, hpgxc, hcoord, hfrom]
  · intro cfg2 qs2 fa et h
    simp [ExecUtilityStmtOnNodes, h]

/-- BEGIN, as parsed. -/
def beginStmt : Node := .TransactionStmt .TRANS_STMT_BEGIN "" []

/-- SAVEPOINT a, as parsed (the grammar supplies the name option). -/
def savepointStmt : Node :=
  .TransactionStmt .TRANS_STMT_SAVEPOINT "" [("savepoint_name", "a")]

/-- ROLLBACK TO SAVEPOINT a, as parsed. -/
def rollbackToStmt : Node :=
  .TransactionStmt .TRANS_STMT_ROLLBACK_TO "" [("savepoint_name", "a")]

/-- COMMIT, as parsed. -/
def commitStmt : Node := .TransactionStmt .TRANS_STMT_COMMIT "" []

/-- The scenario's four dispatches in order, on a vanilla build. -/
def seq1 : UResult :=
  standard_ProcessUtility 5 cfgVanilla ext0 st0 beginStmt "BEGIN" true
    (some "")

/-- Second statement of the scenario. -/
def seq2 : UResult :=
  standard_ProcessUtility 5 cfgVanilla ext0 seq1.st savepointStmt
    "SAVEPOINT a" true (some "")

/-- Third statement of the scenario. -/
def seq3 : UResult :=
  standard_ProcessUtility 5 cfgVanilla ext0 seq2.st rollbackToStmt
    "ROLLBACK TO a" true (some "")

/-- Fourth statement of the scenario. -/
def seq4 : UResult :=
  standard_ProcessUtility 5 cfgVanilla ext0 seq3.st commitStmt "COMMIT"
    true (some "")

/-- C4 is false as stated on this (PGXC) code base: SAVEPOINT dispatched
right after BEGIN on a coordinator fails with the
"SAVEPOINT is not yet supported." rejection, so the four-statement
scenario does not succeed; and outside a block the error raised is that
same feature rejection, not the requires-transaction-block error the
claim states. -/
theorem claim_C4_counterexample :
    (standard_ProcessUtility 5 cfgCoord ext0
      (standard_ProcessUtility 5 cfgCoord ext0 st0 beginStmt "BEGIN" true
        (some "")).st savepointStmt "SAVEPOINT a" true (some "")).err =
      some (.statementTooComplex "SAVEPOINT is not yet supported.") ∧
    (standard_ProcessUtility 5 cfgCoord ext0 st0 savepointStmt
      "SAVEPOINT a" true (some "")).err ≠
      some (.requiresTransactionBlock "SAVEPOINT") := by
  refine ⟨rfl, by decide⟩

/-- C4 amended: on a vanilla (non-PGXC) build the sequence BEGIN;
SAVEPOINT a; ROLLBACK TO a; COMMIT succeeds with no error and SAVEPOINT
outside a transaction block fails with the requires-transaction-block
error, but on a PGXC build every SAVEPOINT dispatch fails with
"SAVEPOINT is not yet supported." before any transaction-block check. -/
theorem claim_C4_amended :
    (seq1.err = none ∧ seq2.err = none ∧ seq3.err = none ∧
      seq4.err = none) ∧
    (standard_ProcessUtility 5 cfgVanilla ext0 st0 savepointStmt
      "SAVEPOINT a" true (some "")).err =
      some (.requiresTransactionBlock "SAVEPOINT") ∧
    (∀ (fuel : Nat) (cfg : Config) (ext : Externals) (st : SessionState)
        (gid qs : String) (opts : List (String × String)) (top : Bool)
        (tag : Option String), cfg.pgxc = true →
      (standard_ProcessUtility (fuel + 1) cfg ext st
        (.TransactionStmt .TRANS_STMT_SAVEPOINT gid opts) qs top tag).err =
        some (.statementTooComplex "SAVEPOINT is not yet supported.")) := by
  refine ⟨⟨rfl, rfl, rfl, rfl⟩, rfl, ?_⟩
  intro fuel cfg ext st gid qs opts top tag hpgxc
  have hc := check_xact_readonly_transaction st.xactReadOnly
    .TRANS_STMT_SAVEPOINT gid opts
  simp [standard_ProcessUtility, hc, hpgxc]

/-- One step of the sub-statement loop of the CREATE TABLE branch for a
generated sub-statement that is not itself a bare
`CreateStmt`/`CreateForeignTableStmt`: it re-enters `ProcessUtility`
with `isTopLevel = false` and a NULL completion tag, and a
`CommandCounterIncrement` boundary is appended exactly when further
sub-statements follow. -/
theorem createStmtSubList_cons (fuel : Nat) (cfg : Config)
    (ext : Externals) (st : SessionState) (sub : Node) (rest : List Node)
    (qs : String) (hne1 : sub ≠ .CreateStmt)
    (hne2 : sub ≠ .CreateForeignTableStmt) :
    createStmtSubList (fuel + 1) cfg ext st (sub :: rest) qs =
      (match (standard_ProcessUtility fuel cfg ext st sub qs false
          none).err with
       | some e =>
         ((standard_ProcessUtility fuel cfg ext st sub qs false none).st,
          (standard_ProcessUtility fuel cfg ext st sub qs false
            none).events, some e)
       | none =>
         if rest.isEmpty then
           ((standard_ProcessUtility fuel cfg ext st sub qs false none).st,
            (standard_ProcessUtility fuel cfg ext st sub qs false
              none).events, none)
         else
           ((createStmtSubList fuel cfg ext
              (standard_ProcessUtility fuel cfg ext st sub qs false
                none).st rest qs).fst,
            (standard_ProcessUtility fuel cfg ext st sub qs false
              none).events ++ [Event.cci] ++
              (createStmtSubList fuel cfg ext
                (standard_ProcessUtility fuel cfg ext st sub qs false
                  none).st rest qs).snd.fst,
            (createStmtSubList fuel cfg ext
              (standard_ProcessUtility fuel cfg ext st sub qs false
                none).st rest qs).snd.snd)) := by
  cases sub <;> first
    | exact absurd rfl hne1
    | exact absurd rfl hne2
    | rfl

/-- C5: a `CreateStmt` sub-statement performs exactly the two leaf
creations `DefineRelation` then `AlterTableCreateToastTable` with one
command-counter increment between them (and a plain CREATE TABLE whose
parse analysis yields that single sub-statement produces exactly that
trace); any other generated sub-statement re-enters dispatch with
`isTopLevel = false` and a NULL tag, and a command-counter increment is
inserted between consecutive sub-statements but not after the last. -/
theorem claim_C5_create_expansion (fuel : Nat) (cfg : Config)
    (ext : Externals) (st : SessionState) (qs : String) (top : Bool)
    (tag : Option String) (sub : Node) (rest : List Node) :
    (createStmtSubList (fuel + 1) cfg ext st [Node.CreateStmt] qs =
      (st, [Event.invoke "DefineRelation", Event.cci,
        Event.invoke "AlterTableCreateToastTable"], none)) ∧
    (cfg.pgxc = false → st.xactReadOnly = false →
      ext.transformCreateStmtResult = [Node.CreateStmt] →
      (standard_ProcessUtility (fuel + 2) cfg ext st .CreateStmt qs top
        tag).events =
        [Event.invoke "DefineRelation", Event.cci,
          Event.invoke "AlterTableCreateToastTable"] ∧
      (standard_ProcessUtility (fuel + 2) cfg ext st .CreateStmt qs top
        tag).err = none) ∧
    (sub ≠ .CreateStmt → sub ≠ .CreateForeignTableStmt →
      (standard_ProcessUtility fuel cfg ext st sub qs false none).err =
        none →
      (createStmtSubList (fuel + 1) cfg ext st [sub] qs =
        ((standard_ProcessUtility fuel cfg ext st sub qs false none).st,
         (standard_ProcessUtility fuel cfg ext st sub qs false
           none).events, none)) ∧
      (rest ≠ [] →
        createStmtSubList (fuel + 1) cfg ext st (sub :: rest) qs =
          ((createStmtSubList fuel cfg ext
              (standard_ProcessUtility fuel cfg ext st sub qs false
                none).st rest qs).fst,
           (standard_ProcessUtility fuel cfg ext st sub qs false
             none).events ++ [Event.cci] ++
             (createStmtSubList fuel cfg ext
               (standard_ProcessUtility fuel cfg ext st sub qs false
                 none).st rest qs).snd.fst,
           (createStmtSubList fuel cfg ext
             (standard_ProcessUtility fuel cfg ext st sub qs false
               none).st rest qs).snd.snd))) := by
  refine ⟨rfl, ?_, ?_⟩
  · intro hpgxc hro htrans
    have hc : check_xact_readonly st.xactReadOnly Node.CreateStmt =
        none := by
      rw [hro]; rfl
    constructor <;>
      simp [standard_ProcessUtility, hc, hpgxc, htrans, createStmtSubList]
  · intro hne1 hne2 herr
    constructor
    · rw [createStmtSubList_cons fuel cfg ext st sub [] qs hne1 hne2, herr]
      rfl
    · intro hrest
      rw [createStmtSubList_cons fuel cfg ext st sub rest qs hne1 hne2,
        herr]
      cases rest with
      | nil => exact absurd rfl hrest
      | cons a l => rfl

set_option maxHeartbeats 3200000 in
/-- C9: dispatching with a NULL completion-tag buffer never writes a
status string, and the session state, event trace and error outcome are
identical to a dispatch with a buffer supplied. -/
theorem claim_C9_null_tag (fuel : Nat) (cfg : Config) (ext : Externals)
    (st : SessionState) (node : Node) (qs : String) (top : Bool)
    (s : String) :
    standard_ProcessUtility fuel cfg ext st node qs top none =
      ⟨(standard_ProcessUtility fuel cfg ext st node qs top (some s)).st,
       (standard_ProcessUtility fuel cfg ext st node qs top
         (some s)).events, none,
       (standard_ProcessUtility fuel cfg ext st node qs top
         (some s)).err⟩ := by
  cases fuel with
  | zero => rfl
  | succ n =>
    cases hc : check_xact_readonly st.xactReadOnly node with
    | some e => simp [standard_ProcessUtility, hc]
    | none =>
      simp only [standard_ProcessUtility, hc]
      cases node <;> first
        | rfl
        | (repeat' split) <;> rfl

end PGU
